import Mathlib

/-!
Verification of the Balatro RL environment translation layer
(`balatro_env`: action codec, state featurizer, episode controller)
against its natural-language specification.

Shallow embedding conventions:
* Python `int` is `Int` (or `Nat` where the source value is provably
  non-negative, e.g. region offsets).
* Python `float` arithmetic in the reward/featurizer is modelled over `ℚ`
  (all constants involved are exact decimal fractions).
* Python `dict`-shaped parameter bags are modelled as structures of
  `Option` fields; `d.get(k, default)` becomes `field.getD default`.
* Fallible Python code (`raise ValueError`, `KeyError`, `TypeError`,
  `IndexError`) is modelled with `Except String`.
* Python truthiness tests on optional strings/ints/dicts (`if x:`) are
  translated explicitly: `None`, `""`, `0` and the empty dict are falsy.
-/

namespace Balatro

instance {ε α : Type} [DecidableEq ε] [DecidableEq α] : DecidableEq (Except ε α) := fun a b =>
  match a, b with
  | .ok x, .ok y => decidable_of_iff (x = y) (by simp)
  | .error x, .error y => decidable_of_iff (x = y) (by simp)
  | .ok _, .error _ => isFalse (by simp)
  | .error _, .ok _ => isFalse (by simp)

/-! ## Action codec data model (src/python/balatro_env/schemas.py)

`ActionRequest.params` is a loosely typed `dict[str, Any]` in the source;
we model exactly the keys the codec reads/writes.  `ActionRequest.type`
is compared as a raw string by `encode_action` (the source unwraps an
`ActionType` enum to its string value first), so we model it as `String`.
-/

structure ActionParams where
  mode : Option String := none
  card_indices : Option (List Int) := none
  slot : Option Int := none
  joker_index : Option Int := none
  choice_index : Option Int := none
  opt : Option String := none  -- the "option" key of SELECT_BLIND params
  deriving DecidableEq, Repr

structure ActionRequest where
  type : String
  params : ActionParams := {}
  deriving DecidableEq, Repr

/-! ## ActionEncoder._build_action_space (action_space.py lines 26-62) -/

def MAX_HAND_SIZE : Nat := 10
def MAX_JOKERS : Nat := 5
def MAX_SHOP_SLOTS : Nat := 6
def MAX_PACK_CHOICES : Nat := 5

/-- The `simple_actions` dict built in `_build_action_space`. -/
def simple_actions : List (String × Nat) :=
  [("SHOP_REROLL", 0), ("SHOP_END", 1), ("SKIP_BLIND", 2), ("SKIP_PACK", 3),
   ("SORT_HAND_RANK", 4), ("SORT_HAND_SUIT", 5)]

/-- Python `self.simple_actions[k]` (as an optional lookup; a missing key
is a `KeyError` at the use site). -/
def simple_actions_get (k : String) : Option Nat :=
  simple_actions.lookup k

def play_hand_offset : Nat := 10
def discard_offset : Nat := play_hand_offset + 1024
def shop_buy_offset : Nat := discard_offset + 1024
def sell_joker_offset : Nat := shop_buy_offset + MAX_SHOP_SLOTS
def pack_select_offset : Nat := sell_joker_offset + MAX_JOKERS
def blind_select_offset : Nat := pack_select_offset + MAX_PACK_CHOICES
def action_space_size : Nat := blind_select_offset + 3  -- small, big, boss

/-- `ActionEncoder.get_action_space_size` (action_space.py lines 258-260). -/
def get_action_space_size : Nat := action_space_size

/-- `BalatroEnv.__init__` line 60: the advertised Gymnasium action space is
`spaces.Discrete(self.action_encoder.get_action_space_size())`. -/
def env_action_space_n : Nat := get_action_space_size

/-! ## Bitmap helpers (action_space.py lines 64-92) -/

/-- `ActionEncoder.card_indices_to_bitmap`: OR together bit `idx-1` for every
1-indexed position `idx` with `1 <= idx <= MAX_HAND_SIZE`. -/
def card_indices_to_bitmap (indices : List Int) : Nat :=
  indices.foldl
    (fun bitmap idx =>
      if 1 ≤ idx ∧ idx ≤ (MAX_HAND_SIZE : Int) then
        bitmap ||| (1 <<< (idx - 1).toNat)
      else bitmap)
    0

/-- `ActionEncoder.bitmap_to_card_indices`: collect `i+1` for every set bit
`i < MAX_HAND_SIZE`, in increasing order (the Python loop appends). -/
def bitmap_to_card_indices (bitmap : Nat) : List Int :=
  (List.range MAX_HAND_SIZE).foldl
    (fun indices i =>
      if bitmap &&& (1 <<< i) ≠ 0 then indices ++ [(i : Int) + 1] else indices)
    []

/-! ## ActionEncoder.encode_action (action_space.py lines 94-138) -/

/-- ASCII uppercase of one character (Python `str.upper` acts per character;
the codec only ever uppercases the ASCII mode strings "rank"/"suit"). -/
def upper_char (c : Char) : Char :=
  if 'a' ≤ c ∧ c ≤ 'z' then Char.ofNat (c.toNat - 32) else c

/-- Python `mode.upper()` for the ASCII strings the codec handles. -/
def py_upper (s : String) : String := String.mk (s.data.map upper_char)

def encode_action (action : ActionRequest) : Except String Int :=
  let action_type := action.type
  if action_type = "SHOP_REROLL" then .ok ((simple_actions_get "SHOP_REROLL").getD 0 : Nat)
  else if action_type = "SHOP_END" then .ok ((simple_actions_get "SHOP_END").getD 0 : Nat)
  else if action_type = "SKIP_BLIND" then .ok ((simple_actions_get "SKIP_BLIND").getD 0 : Nat)
  else if action_type = "SKIP_PACK" then .ok ((simple_actions_get "SKIP_PACK").getD 0 : Nat)
  else if action_type = "SORT_HAND" then
    -- mode = action.params.get("mode", "rank"); simple_actions[f"SORT_HAND_{mode.upper()}"]
    let mode := action.params.mode.getD "rank"
    match simple_actions_get ("SORT_HAND_" ++ py_upper mode) with
    | some i => .ok (i : Int)
    | none => .error ("KeyError: SORT_HAND_" ++ py_upper mode)
  else if action_type = "PLAY_HAND" then
    let indices := action.params.card_indices.getD []
    .ok ((play_hand_offset : Int) + card_indices_to_bitmap indices)
  else if action_type = "DISCARD" then
    let indices := action.params.card_indices.getD []
    .ok ((discard_offset : Int) + card_indices_to_bitmap indices)
  else if action_type = "SHOP_BUY" then
    let slot := action.params.slot.getD 1
    .ok ((shop_buy_offset : Int) + slot - 1)
  else if action_type = "SHOP_SELL_JOKER" then
    let joker_idx := action.params.joker_index.getD 1
    .ok ((sell_joker_offset : Int) + joker_idx - 1)
  else if action_type = "SELECT_PACK_ITEM" then
    let choice_idx := action.params.choice_index.getD 1
    .ok ((pack_select_offset : Int) + choice_idx - 1)
  else if action_type = "SELECT_BLIND" then
    -- options = {"small": 0, "big": 1, "boss": 2}; options.get(option, 0)
    let memberOpt := action.params.opt.getD "small"
    let option_val : Nat :=
      if memberOpt = "small" then 0 else if memberOpt = "big" then 1
      else if memberOpt = "boss" then 2 else 0
    .ok ((blind_select_offset : Int) + option_val)
  else .error ("Unknown action type: " ++ action_type)

/-! ## ActionEncoder.decode_action (action_space.py lines 140-183) -/

def decode_action (action_idx : Int) : Except String ActionRequest :=
  if action_idx = ((simple_actions_get "SHOP_REROLL").getD 0 : Nat) then
    .ok { type := "SHOP_REROLL" }
  else if action_idx = ((simple_actions_get "SHOP_END").getD 0 : Nat) then
    .ok { type := "SHOP_END" }
  else if action_idx = ((simple_actions_get "SKIP_BLIND").getD 0 : Nat) then
    .ok { type := "SKIP_BLIND" }
  else if action_idx = ((simple_actions_get "SKIP_PACK").getD 0 : Nat) then
    .ok { type := "SKIP_PACK" }
  else if action_idx = ((simple_actions_get "SORT_HAND_RANK").getD 0 : Nat) then
    .ok { type := "SORT_HAND", params := { mode := some "rank" } }
  else if action_idx = ((simple_actions_get "SORT_HAND_SUIT").getD 0 : Nat) then
    .ok { type := "SORT_HAND", params := { mode := some "suit" } }
  else if (play_hand_offset : Int) ≤ action_idx ∧ action_idx < (discard_offset : Int) then
    let bitmap := (action_idx - (play_hand_offset : Int)).toNat
    .ok { type := "PLAY_HAND", params := { card_indices := some (bitmap_to_card_indices bitmap) } }
  else if (discard_offset : Int) ≤ action_idx ∧ action_idx < (shop_buy_offset : Int) then
    let bitmap := (action_idx - (discard_offset : Int)).toNat
    .ok { type := "DISCARD", params := { card_indices := some (bitmap_to_card_indices bitmap) } }
  else if (shop_buy_offset : Int) ≤ action_idx ∧ action_idx < (sell_joker_offset : Int) then
    .ok { type := "SHOP_BUY", params := { slot := some (action_idx - shop_buy_offset + 1) } }
  else if (sell_joker_offset : Int) ≤ action_idx ∧ action_idx < (pack_select_offset : Int) then
    .ok { type := "SHOP_SELL_JOKER",
          params := { joker_index := some (action_idx - sell_joker_offset + 1) } }
  else if (pack_select_offset : Int) ≤ action_idx ∧ action_idx < (blind_select_offset : Int) then
    .ok { type := "SELECT_PACK_ITEM",
          params := { choice_index := some (action_idx - pack_select_offset + 1) } }
  else if (blind_select_offset : Int) ≤ action_idx ∧ action_idx < (action_space_size : Int) then
    -- options = ["small", "big", "boss"]; options[action_idx - blind_select_offset]
    let option_idx := (action_idx - (blind_select_offset : Int)).toNat
    .ok { type := "SELECT_BLIND", params := { opt := ["small", "big", "boss"].get? option_idx } }
  else .error ("Invalid action index: " ++ toString action_idx)

/-! ## Evaluation lemmas for the codec constants -/

theorem MAX_HAND_SIZE_eq : MAX_HAND_SIZE = 10 := rfl
theorem play_hand_offset_eq : play_hand_offset = 10 := rfl
theorem discard_offset_eq : discard_offset = 1034 := rfl
theorem shop_buy_offset_eq : shop_buy_offset = 2058 := rfl
theorem sell_joker_offset_eq : sell_joker_offset = 2064 := rfl
theorem pack_select_offset_eq : pack_select_offset = 2069 := rfl
theorem blind_select_offset_eq : blind_select_offset = 2074 := rfl
theorem action_space_size_eq : action_space_size = 2077 := rfl

theorem sa_cast_reroll : (((simple_actions_get "SHOP_REROLL").getD 0 : Nat) : Int) = 0 := rfl
theorem sa_cast_end : (((simple_actions_get "SHOP_END").getD 0 : Nat) : Int) = 1 := rfl
theorem sa_cast_skipb : (((simple_actions_get "SKIP_BLIND").getD 0 : Nat) : Int) = 2 := rfl
theorem sa_cast_skipp : (((simple_actions_get "SKIP_PACK").getD 0 : Nat) : Int) = 3 := rfl
theorem sa_cast_rank : (((simple_actions_get "SORT_HAND_RANK").getD 0 : Nat) : Int) = 4 := rfl
theorem sa_cast_suit : (((simple_actions_get "SORT_HAND_SUIT").getD 0 : Nat) : Int) = 5 := rfl

theorem isOk_ok {ε α : Type} (x : α) : (Except.ok x : Except ε α).isOk = true := rfl

theorem isOk_error {ε α : Type} (e : ε) : (Except.error e : Except ε α).isOk = false := rfl

theorem bind_ok {ε α β : Type} (x : α) (f : α → Except ε β) :
    (Except.ok x : Except ε α).bind f = f x := rfl

/-! ## Bitmap lemmas -/

theorem one_shiftLeft_eq (k : Nat) : 1 <<< k = 2 ^ k := by
  rw [Nat.shiftLeft_eq, one_mul]

theorem bitmap_foldl_lt (l : List Int) (acc : Nat) (h : acc < 1024) :
    (l.foldl
      (fun bitmap idx =>
        if 1 ≤ idx ∧ idx ≤ (MAX_HAND_SIZE : Int) then
          bitmap ||| (1 <<< (idx - 1).toNat)
        else bitmap)
      acc) < 1024 := by
  induction l generalizing acc with
  | nil => simpa using h
  | cons a t ih =>
    rw [List.foldl_cons]
    apply ih
    by_cases ha : 1 ≤ a ∧ a ≤ (MAX_HAND_SIZE : Int)
    · rw [if_pos ha]
      have h10 : (2 : Nat) ^ 10 = 1024 := by norm_num
      have hk : (a - 1).toNat < 10 := by
        rw [MAX_HAND_SIZE_eq] at ha; omega
      have hpow : 1 <<< (a - 1).toNat < 1024 := by
        rw [one_shiftLeft_eq, ← h10]
        exact Nat.pow_lt_pow_right (by norm_num) hk
      rw [← h10] at h hpow ⊢
      exact Nat.or_lt_two_pow h hpow
    · rwa [if_neg ha]

/-- Every bitmap produced from card indices fits in the 1024-wide region. -/
theorem card_indices_to_bitmap_lt (l : List Int) : card_indices_to_bitmap l < 1024 :=
  bitmap_foldl_lt l 0 (by norm_num)

theorem bitmap_foldl_testBit (l : List Int) (acc : Nat) (j : Nat) :
    ((l.foldl
      (fun bitmap idx =>
        if 1 ≤ idx ∧ idx ≤ (MAX_HAND_SIZE : Int) then
          bitmap ||| (1 <<< (idx - 1).toNat)
        else bitmap)
      acc).testBit j = true) ↔
    (acc.testBit j = true ∨ ∃ x ∈ l, (1 ≤ x ∧ x ≤ (MAX_HAND_SIZE : Int)) ∧ (x - 1).toNat = j) := by
  induction l generalizing acc with
  | nil => simp
  | cons a t ih =>
    rw [List.foldl_cons, ih]
    by_cases ha : 1 ≤ a ∧ a ≤ (MAX_HAND_SIZE : Int)
    · rw [if_pos ha]
      simp only [Nat.testBit_lor, one_shiftLeft_eq, Nat.testBit_two_pow, List.mem_cons,
        Bool.or_eq_true, decide_eq_true_eq]
      constructor
      · rintro ((h | h) | ⟨x, hx, hp⟩)
        · exact Or.inl h
        · exact Or.inr ⟨a, Or.inl rfl, ha, h⟩
        · exact Or.inr ⟨x, Or.inr hx, hp⟩
      · rintro (h | ⟨x, (rfl | hx), hp⟩)
        · exact Or.inl (Or.inl h)
        · exact Or.inl (Or.inr hp.2)
        · exact Or.inr ⟨x, hx, hp⟩
    · rw [if_neg ha]
      simp only [List.mem_cons]
      constructor
      · rintro (h | ⟨x, hx, hp⟩)
        · exact Or.inl h
        · exact Or.inr ⟨x, Or.inr hx, hp⟩
      · rintro (h | ⟨x, (rfl | hx), hp⟩)
        · exact Or.inl h
        · exact absurd hp.1 ha
        · exact Or.inr ⟨x, hx, hp⟩

/-- Bit `j` of `card_indices_to_bitmap l` is set exactly when some in-range
index of `l` selects it. -/
theorem bitmap_testBit_iff (l : List Int) (j : Nat) :
    ((card_indices_to_bitmap l).testBit j = true) ↔
    (∃ x ∈ l, (1 ≤ x ∧ x ≤ (MAX_HAND_SIZE : Int)) ∧ (x - 1).toNat = j) := by
  have h := bitmap_foldl_testBit l 0 j
  simpa [card_indices_to_bitmap] using h

set_option maxRecDepth 100000 in
theorem bitmap_roundtrip :
    ∀ b < 1024, card_indices_to_bitmap (bitmap_to_card_indices b) = b := by
  decide

set_option maxRecDepth 100000 in
theorem b2c_mem_range :
    ∀ b < 1024, ∀ x ∈ bitmap_to_card_indices b, 1 ≤ x ∧ x ≤ (10 : Int) := by
  decide

set_option maxRecDepth 100000 in
theorem b2c_mem_testBit :
    ∀ b < 1024, ∀ j : Nat, j < 10 → (((j : Int) + 1) ∈ bitmap_to_card_indices b ↔ b.testBit j = true) := by
  decide

/-- Decoding the bitmap of a list of in-range card positions recovers exactly
the same set of positions. -/
theorem mem_b2c_bitmap (l : List Int) (hl : ∀ x ∈ l, 1 ≤ x ∧ x ≤ (MAX_HAND_SIZE : Int))
    (x : Int) :
    x ∈ bitmap_to_card_indices (card_indices_to_bitmap l) ↔ x ∈ l := by
  have hb : card_indices_to_bitmap l < 1024 := card_indices_to_bitmap_lt l
  rw [MAX_HAND_SIZE_eq] at hl
  constructor
  · intro hx
    have hrange := b2c_mem_range _ hb x hx
    have hj : (x - 1).toNat < 10 := by omega
    have hmem := (b2c_mem_testBit _ hb (x - 1).toNat hj).mp (by
      have hx' : (((x - 1).toNat : Int) + 1) = x := by omega
      rwa [hx'])
    rcases (bitmap_testBit_iff l (x - 1).toNat).mp hmem with ⟨y, hy, hyr, hye⟩
    rw [MAX_HAND_SIZE_eq] at hyr
    have : y = x := by omega
    rwa [← this]
  · intro hx
    have hr := hl x hx
    have hj : (x - 1).toNat < 10 := by omega
    have hbit : (card_indices_to_bitmap l).testBit (x - 1).toNat = true :=
      (bitmap_testBit_iff l (x - 1).toNat).mpr
        ⟨x, hx, by rw [MAX_HAND_SIZE_eq]; exact hr, rfl⟩
    have := (b2c_mem_testBit _ hb (x - 1).toNat hj).mpr hbit
    have hx' : (((x - 1).toNat : Int) + 1) = x := by omega
    rwa [hx'] at this

/-! ## Regional evaluation lemmas for decode_action -/

theorem decode_play_hand (i : Int) (h1 : 10 ≤ i) (h2 : i < 1034) :
    decode_action i =
      .ok { type := "PLAY_HAND",
            params := { card_indices := some (bitmap_to_card_indices (i - 10).toNat) } } := by
  unfold decode_action
  simp only [sa_cast_reroll, sa_cast_end, sa_cast_skipb, sa_cast_skipp, sa_cast_rank,
    sa_cast_suit, play_hand_offset_eq, discard_offset_eq, shop_buy_offset_eq,
    sell_joker_offset_eq, pack_select_offset_eq, blind_select_offset_eq, action_space_size_eq]
  rw [if_neg (show ¬(i = 0) by omega),
    if_neg (show ¬(i = 1) by omega),
    if_neg (show ¬(i = 2) by omega),
    if_neg (show ¬(i = 3) by omega),
    if_neg (show ¬(i = 4) by omega),
    if_neg (show ¬(i = 5) by omega),
    if_pos (show ((10 : Nat) : Int) ≤ i ∧ i < ((1034 : Nat) : Int) from ⟨by omega, by omega⟩)]
  norm_cast

theorem decode_discard (i : Int) (h1 : 1034 ≤ i) (h2 : i < 2058) :
    decode_action i =
      .ok { type := "DISCARD",
            params := { card_indices := some (bitmap_to_card_indices (i - 1034).toNat) } } := by
  unfold decode_action
  simp only [sa_cast_reroll, sa_cast_end, sa_cast_skipb, sa_cast_skipp, sa_cast_rank,
    sa_cast_suit, play_hand_offset_eq, discard_offset_eq, shop_buy_offset_eq,
    sell_joker_offset_eq, pack_select_offset_eq, blind_select_offset_eq, action_space_size_eq]
  rw [if_neg (show ¬(i = 0) by omega),
    if_neg (show ¬(i = 1) by omega),
    if_neg (show ¬(i = 2) by omega),
    if_neg (show ¬(i = 3) by omega),
    if_neg (show ¬(i = 4) by omega),
    if_neg (show ¬(i = 5) by omega),
    if_neg (show ¬(((10 : Nat) : Int) ≤ i ∧ i < ((1034 : Nat) : Int)) by omega),
    if_pos (show ((1034 : Nat) : Int) ≤ i ∧ i < ((2058 : Nat) : Int) from ⟨by omega, by omega⟩)]
  norm_cast

theorem decode_shop_buy (i : Int) (h1 : 2058 ≤ i) (h2 : i < 2064) :
    decode_action i =
      .ok { type := "SHOP_BUY", params := { slot := some (i - 2058 + 1) } } := by
  unfold decode_action
  simp only [sa_cast_reroll, sa_cast_end, sa_cast_skipb, sa_cast_skipp, sa_cast_rank,
    sa_cast_suit, play_hand_offset_eq, discard_offset_eq, shop_buy_offset_eq,
    sell_joker_offset_eq, pack_select_offset_eq, blind_select_offset_eq, action_space_size_eq]
  rw [if_neg (show ¬(i = 0) by omega),
    if_neg (show ¬(i = 1) by omega),
    if_neg (show ¬(i = 2) by omega),
    if_neg (show ¬(i = 3) by omega),
    if_neg (show ¬(i = 4) by omega),
    if_neg (show ¬(i = 5) by omega),
    if_neg (show ¬(((10 : Nat) : Int) ≤ i ∧ i < ((1034 : Nat) : Int)) by omega),
    if_neg (show ¬(((1034 : Nat) : Int) ≤ i ∧ i < ((2058 : Nat) : Int)) by omega),
    if_pos (show ((2058 : Nat) : Int) ≤ i ∧ i < ((2064 : Nat) : Int) from ⟨by omega, by omega⟩)]
  norm_cast

theorem decode_sell_joker (i : Int) (h1 : 2064 ≤ i) (h2 : i < 2069) :
    decode_action i =
      .ok { type := "SHOP_SELL_JOKER", params := { joker_index := some (i - 2064 + 1) } } := by
  unfold decode_action
  simp only [sa_cast_reroll, sa_cast_end, sa_cast_skipb, sa_cast_skipp, sa_cast_rank,
    sa_cast_suit, play_hand_offset_eq, discard_offset_eq, shop_buy_offset_eq,
    sell_joker_offset_eq, pack_select_offset_eq, blind_select_offset_eq, action_space_size_eq]
  rw [if_neg (show ¬(i = 0) by omega),
    if_neg (show ¬(i = 1) by omega),
    if_neg (show ¬(i = 2) by omega),
    if_neg (show ¬(i = 3) by omega),
    if_neg (show ¬(i = 4) by omega),
    if_neg (show ¬(i = 5) by omega),
    if_neg (show ¬(((10 : Nat) : Int) ≤ i ∧ i < ((1034 : Nat) : Int)) by omega),
    if_neg (show ¬(((1034 : Nat) : Int) ≤ i ∧ i < ((2058 : Nat) : Int)) by omega),
    if_neg (show ¬(((2058 : Nat) : Int) ≤ i ∧ i < ((2064 : Nat) : Int)) by omega),
    if_pos (show ((2064 : Nat) : Int) ≤ i ∧ i < ((2069 : Nat) : Int) from ⟨by omega, by omega⟩)]
  norm_cast

theorem decode_pack_select (i : Int) (h1 : 2069 ≤ i) (h2 : i < 2074) :
    decode_action i =
      .ok { type := "SELECT_PACK_ITEM", params := { choice_index := some (i - 2069 + 1) } } := by
  unfold decode_action
  simp only [sa_cast_reroll, sa_cast_end, sa_cast_skipb, sa_cast_skipp, sa_cast_rank,
    sa_cast_suit, play_hand_offset_eq, discard_offset_eq, shop_buy_offset_eq,
    sell_joker_offset_eq, pack_select_offset_eq, blind_select_offset_eq, action_space_size_eq]
  rw [if_neg (show ¬(i = 0) by omega),
    if_neg (show ¬(i = 1) by omega),
    if_neg (show ¬(i = 2) by omega),
    if_neg (show ¬(i = 3) by omega),
    if_neg (show ¬(i = 4) by omega),
    if_neg (show ¬(i = 5) by omega),
    if_neg (show ¬(((10 : Nat) : Int) ≤ i ∧ i < ((1034 : Nat) : Int)) by omega),
    if_neg (show ¬(((1034 : Nat) : Int) ≤ i ∧ i < ((2058 : Nat) : Int)) by omega),
    if_neg (show ¬(((2058 : Nat) : Int) ≤ i ∧ i < ((2064 : Nat) : Int)) by omega),
    if_neg (show ¬(((2064 : Nat) : Int) ≤ i ∧ i < ((2069 : Nat) : Int)) by omega),
    if_pos (show ((2069 : Nat) : Int) ≤ i ∧ i < ((2074 : Nat) : Int) from ⟨by omega, by omega⟩)]
  norm_cast

theorem decode_select_blind (i : Int) (h1 : 2074 ≤ i) (h2 : i < 2077) :
    decode_action i =
      .ok { type := "SELECT_BLIND",
            params := { opt := ["small", "big", "boss"].get? (i - 2074).toNat } } := by
  unfold decode_action
  simp only [sa_cast_reroll, sa_cast_end, sa_cast_skipb, sa_cast_skipp, sa_cast_rank,
    sa_cast_suit, play_hand_offset_eq, discard_offset_eq, shop_buy_offset_eq,
    sell_joker_offset_eq, pack_select_offset_eq, blind_select_offset_eq, action_space_size_eq]
  rw [if_neg (show ¬(i = 0) by omega),
    if_neg (show ¬(i = 1) by omega),
    if_neg (show ¬(i = 2) by omega),
    if_neg (show ¬(i = 3) by omega),
    if_neg (show ¬(i = 4) by omega),
    if_neg (show ¬(i = 5) by omega),
    if_neg (show ¬(((10 : Nat) : Int) ≤ i ∧ i < ((1034 : Nat) : Int)) by omega),
    if_neg (show ¬(((1034 : Nat) : Int) ≤ i ∧ i < ((2058 : Nat) : Int)) by omega),
    if_neg (show ¬(((2058 : Nat) : Int) ≤ i ∧ i < ((2064 : Nat) : Int)) by omega),
    if_neg (show ¬(((2064 : Nat) : Int) ≤ i ∧ i < ((2069 : Nat) : Int)) by omega),
    if_neg (show ¬(((2069 : Nat) : Int) ≤ i ∧ i < ((2074 : Nat) : Int)) by omega),
    if_pos (show ((2074 : Nat) : Int) ≤ i ∧ i < ((2077 : Nat) : Int) from ⟨by omega, by omega⟩)]
  norm_cast

theorem decode_invalid (i : Int) (h : i < 0 ∨ (6 ≤ i ∧ i ≤ 9) ∨ 2077 ≤ i) :
    decode_action i = .error ("Invalid action index: " ++ toString i) := by
  unfold decode_action
  simp only [sa_cast_reroll, sa_cast_end, sa_cast_skipb, sa_cast_skipp, sa_cast_rank,
    sa_cast_suit, play_hand_offset_eq, discard_offset_eq, shop_buy_offset_eq,
    sell_joker_offset_eq, pack_select_offset_eq, blind_select_offset_eq, action_space_size_eq]
  rw [if_neg (show ¬(i = 0) by omega),
    if_neg (show ¬(i = 1) by omega),
    if_neg (show ¬(i = 2) by omega),
    if_neg (show ¬(i = 3) by omega),
    if_neg (show ¬(i = 4) by omega),
    if_neg (show ¬(i = 5) by omega),
    if_neg (show ¬(((10 : Nat) : Int) ≤ i ∧ i < ((1034 : Nat) : Int)) by omega),
    if_neg (show ¬(((1034 : Nat) : Int) ≤ i ∧ i < ((2058 : Nat) : Int)) by omega),
    if_neg (show ¬(((2058 : Nat) : Int) ≤ i ∧ i < ((2064 : Nat) : Int)) by omega),
    if_neg (show ¬(((2064 : Nat) : Int) ≤ i ∧ i < ((2069 : Nat) : Int)) by omega),
    if_neg (show ¬(((2069 : Nat) : Int) ≤ i ∧ i < ((2074 : Nat) : Int)) by omega),
    if_neg (show ¬(((2074 : Nat) : Int) ≤ i ∧ i < ((2077 : Nat) : Int)) by omega)]

/-! ## Claim C1 -/

/-- C1 counterexample: the action-space size the codec reports (and the
environment advertises) is not 2073 as the spec claims. -/
theorem C1_counterexample : get_action_space_size ≠ 2073 ∧ env_action_space_n ≠ 2073 := by
  decide

/-- C1 (amended): the regions appear in the claimed order with the claimed
sizes, but the simple-action region occupies indices 0-5 while PLAY_HAND
begins at offset 10, leaving the four indices 6-9 unused; the total size
reported by the codec and advertised by the environment is 2077, not 2073. -/
theorem C1_action_space_layout :
    simple_actions =
      [("SHOP_REROLL", 0), ("SHOP_END", 1), ("SKIP_BLIND", 2), ("SKIP_PACK", 3),
       ("SORT_HAND_RANK", 4), ("SORT_HAND_SUIT", 5)] ∧
    play_hand_offset = 10 ∧
    discard_offset = play_hand_offset + 1024 ∧
    shop_buy_offset = discard_offset + 1024 ∧
    sell_joker_offset = shop_buy_offset + 6 ∧
    pack_select_offset = sell_joker_offset + 5 ∧
    blind_select_offset = pack_select_offset + 5 ∧
    action_space_size = blind_select_offset + 3 ∧
    get_action_space_size = 2077 ∧
    env_action_space_n = get_action_space_size := by
  exact ⟨rfl, rfl, rfl, rfl, rfl, rfl, rfl, rfl, rfl, rfl⟩

/-! ## Claim C2 -/

/-- C2 counterexample: index 6 lies inside `[0, ACTION_SPACE_SIZE)` yet
`decode_action` rejects it. -/
theorem C2_counterexample :
    (0 : Int) ≤ 6 ∧ (6 : Int) < (action_space_size : Int) ∧
    decode_action 6 = .error "Invalid action index: 6" := by
  decide

/-- C2 (amended): decode succeeds exactly on the indices of
`[0, ACTION_SPACE_SIZE)` outside the unused gap 6-9, and fails with the
index-out-of-range `ValueError` everywhere else (in particular on every
index outside `[0, ACTION_SPACE_SIZE)`). -/
theorem C2_decode_totality (i : Int) :
    ((decode_action i).isOk = true ↔
      (0 ≤ i ∧ i < (action_space_size : Int) ∧ ¬(6 ≤ i ∧ i ≤ 9))) ∧
    ((i < 0 ∨ (action_space_size : Int) ≤ i ∨ (6 ≤ i ∧ i ≤ 9)) →
      decode_action i = .error ("Invalid action index: " ++ toString i)) := by
  constructor
  · by_cases h : i < 0 ∨ (6 ≤ i ∧ i ≤ 9) ∨ 2077 ≤ i
    · rw [decode_invalid i h]
      simp only [isOk_error, action_space_size_eq]
      constructor
      · intro hF; exact absurd hF (by decide)
      · intro hc; exfalso; omega
    · push_neg at h
      have hcases : (0 ≤ i ∧ i ≤ 5) ∨ (10 ≤ i ∧ i < 1034) ∨ (1034 ≤ i ∧ i < 2058) ∨
          (2058 ≤ i ∧ i < 2064) ∨ (2064 ≤ i ∧ i < 2069) ∨ (2069 ≤ i ∧ i < 2074) ∨
          (2074 ≤ i ∧ i < 2077) := by omega
      rcases hcases with ⟨ha, hb⟩ | ⟨ha, hb⟩ | ⟨ha, hb⟩ | ⟨ha, hb⟩ | ⟨ha, hb⟩ |
        ⟨ha, hb⟩ | ⟨ha, hb⟩
      · interval_cases i <;> decide
      · rw [decode_play_hand i ha hb]
        simp only [isOk_ok, action_space_size_eq]
        exact ⟨fun _ => by push_cast; omega, fun _ => trivial⟩
      · rw [decode_discard i ha hb]
        simp only [isOk_ok, action_space_size_eq]
        exact ⟨fun _ => by push_cast; omega, fun _ => trivial⟩
      · rw [decode_shop_buy i ha hb]
        simp only [isOk_ok, action_space_size_eq]
        exact ⟨fun _ => by push_cast; omega, fun _ => trivial⟩
      · rw [decode_sell_joker i ha hb]
        simp only [isOk_ok, action_space_size_eq]
        exact ⟨fun _ => by push_cast; omega, fun _ => trivial⟩
      · rw [decode_pack_select i ha hb]
        simp only [isOk_ok, action_space_size_eq]
        exact ⟨fun _ => by push_cast; omega, fun _ => trivial⟩
      · rw [decode_select_blind i ha hb]
        simp only [isOk_ok, action_space_size_eq]
        exact ⟨fun _ => by push_cast; omega, fun _ => trivial⟩
  · intro h
    apply decode_invalid
    simp only [action_space_size_eq] at h
    push_cast at h
    omega

/-- C2 witness: the totality characterization applied at the concrete
out-of-range index -3. -/
theorem C2_witness :
    decode_action (-3) = .error ("Invalid action index: " ++ toString (-3 : Int)) :=
  (C2_decode_totality (-3)).2 (by norm_num)

/-! ## Claim C3: round-trip -/

/-- The 11 documented action kinds (schemas.py `ActionType`). -/
def documented_kinds : List String :=
  ["PLAY_HAND", "DISCARD", "SORT_HAND", "SHOP_BUY", "SHOP_REROLL", "SHOP_SELL_JOKER",
   "SHOP_END", "SELECT_BLIND", "SKIP_BLIND", "SELECT_PACK_ITEM", "SKIP_PACK"]

/-- Spec-side predicate: the action is constructible from one of the 11
documented kinds with its parameters in their documented domains
(positions 1..10, slots 1..6, joker indices 1..5, pack choices 1..5,
sort modes rank/suit, blind options small/big/boss). -/
def in_documented_domain (a : ActionRequest) : Prop :=
  (a.type = "SHOP_REROLL" ∧ a.params = {}) ∨
  (a.type = "SHOP_END" ∧ a.params = {}) ∨
  (a.type = "SKIP_BLIND" ∧ a.params = {}) ∨
  (a.type = "SKIP_PACK" ∧ a.params = {}) ∨
  (a.type = "SORT_HAND" ∧ ∃ m, (m = "rank" ∨ m = "suit") ∧ a.params = { mode := some m }) ∨
  (a.type = "PLAY_HAND" ∧ ∃ l, (∀ x ∈ l, 1 ≤ x ∧ x ≤ (10 : Int)) ∧
    a.params = { card_indices := some l }) ∨
  (a.type = "DISCARD" ∧ ∃ l, (∀ x ∈ l, 1 ≤ x ∧ x ≤ (10 : Int)) ∧
    a.params = { card_indices := some l }) ∨
  (a.type = "SHOP_BUY" ∧ ∃ s, 1 ≤ s ∧ s ≤ (6 : Int) ∧ a.params = { slot := some s }) ∨
  (a.type = "SHOP_SELL_JOKER" ∧ ∃ j, 1 ≤ j ∧ j ≤ (5 : Int) ∧
    a.params = { joker_index := some j }) ∨
  (a.type = "SELECT_PACK_ITEM" ∧ ∃ c, 1 ≤ c ∧ c ≤ (5 : Int) ∧
    a.params = { choice_index := some c }) ∨
  (a.type = "SELECT_BLIND" ∧ ∃ o, (o = "small" ∨ o = "big" ∨ o = "boss") ∧
    a.params = { opt := some o })

/-- Spec-side semantic equality of structured actions: same kind, same
parameters, with card-position lists compared as sets. -/
def params_sem_eq (p q : ActionParams) : Prop :=
  p.mode = q.mode ∧ p.slot = q.slot ∧ p.joker_index = q.joker_index ∧
  p.choice_index = q.choice_index ∧ p.opt = q.opt ∧
  ((p.card_indices = none ∧ q.card_indices = none) ∨
   (∃ l m, p.card_indices = some l ∧ q.card_indices = some m ∧ ∀ x : Int, x ∈ l ↔ x ∈ m))

def sem_eq (a b : ActionRequest) : Prop :=
  a.type = b.type ∧ params_sem_eq a.params b.params

theorem encode_play_hand_eq (l : List Int) :
    encode_action { type := "PLAY_HAND", params := { card_indices := some l } } =
      .ok ((play_hand_offset : Int) + card_indices_to_bitmap l) := rfl

theorem encode_discard_eq (l : List Int) :
    encode_action { type := "DISCARD", params := { card_indices := some l } } =
      .ok ((discard_offset : Int) + card_indices_to_bitmap l) := rfl

theorem encode_shop_buy_eq (s : Int) :
    encode_action { type := "SHOP_BUY", params := { slot := some s } } =
      .ok ((shop_buy_offset : Int) + s - 1) := rfl

theorem encode_sell_joker_eq (j : Int) :
    encode_action { type := "SHOP_SELL_JOKER", params := { joker_index := some j } } =
      .ok ((sell_joker_offset : Int) + j - 1) := rfl

theorem encode_pack_select_eq (c : Int) :
    encode_action { type := "SELECT_PACK_ITEM", params := { choice_index := some c } } =
      .ok ((pack_select_offset : Int) + c - 1) := rfl

/-- C3 counterexample: index 6 lies in `[0, 2073)` but `decode_action`
rejects it, so `encode(decode(6))` cannot equal 6. -/
theorem C3_counterexample :
    (0 : Int) ≤ 6 ∧ (6 : Int) < 2073 ∧
    (decode_action 6).bind encode_action ≠ .ok 6 := by
  decide

/-- C3 (amended): the round-trip `encode (decode i) = i` holds for every
index of `[0, ACTION_SPACE_SIZE)` outside the unused gap 6-9 (in
particular it fails on 6-9, which lie below 2073); and for every
structured action of the 11 documented kinds with parameters in their
documented domains, decoding its encoding yields a semantically equal
action (same kind, same parameters, card-position lists as sets). -/
theorem C3_round_trip :
    (∀ i : Int, 0 ≤ i → i < (action_space_size : Int) → ¬(6 ≤ i ∧ i ≤ 9) →
      (decode_action i).bind encode_action = .ok i) ∧
    (∀ a : ActionRequest, in_documented_domain a →
      ∃ idx b, encode_action a = .ok idx ∧ decode_action idx = .ok b ∧ sem_eq b a) := by
  constructor
  · intro i h0 hlt hgap
    simp only [action_space_size_eq] at hlt
    push_cast at hlt
    have hcases : (0 ≤ i ∧ i ≤ 5) ∨ (10 ≤ i ∧ i < 1034) ∨ (1034 ≤ i ∧ i < 2058) ∨
        (2058 ≤ i ∧ i < 2077) := by omega
    rcases hcases with ⟨ha, hb⟩ | ⟨ha, hb⟩ | ⟨ha, hb⟩ | ⟨ha, hb⟩
    · interval_cases i <;> decide
    · rw [decode_play_hand i ha hb, bind_ok, encode_play_hand_eq,
        bitmap_roundtrip (i - 10).toNat (by omega)]
      congr 1
      simp only [play_hand_offset_eq]
      push_cast
      omega
    · rw [decode_discard i ha hb, bind_ok, encode_discard_eq,
        bitmap_roundtrip (i - 1034).toNat (by omega)]
      congr 1
      simp only [discard_offset_eq]
      push_cast
      omega
    · interval_cases i <;> decide
  · rintro ⟨ty, pa⟩ hd
    rcases hd with ⟨hty, hpa⟩ | ⟨hty, hpa⟩ | ⟨hty, hpa⟩ | ⟨hty, hpa⟩ |
      ⟨hty, m, hm, hpa⟩ | ⟨hty, l, hl, hpa⟩ | ⟨hty, l, hl, hpa⟩ |
      ⟨hty, s, hs1, hs2, hpa⟩ | ⟨hty, j, hj1, hj2, hpa⟩ | ⟨hty, c, hc1, hc2, hpa⟩ |
      ⟨hty, o, ho, hpa⟩ <;> simp only at hty hpa <;> subst hty <;> subst hpa
    · exact ⟨0, ⟨"SHOP_REROLL", {}⟩, rfl, rfl, rfl, rfl, rfl, rfl, rfl, rfl,
        Or.inl ⟨rfl, rfl⟩⟩
    · exact ⟨1, ⟨"SHOP_END", {}⟩, rfl, rfl, rfl, rfl, rfl, rfl, rfl, rfl,
        Or.inl ⟨rfl, rfl⟩⟩
    · exact ⟨2, ⟨"SKIP_BLIND", {}⟩, rfl, rfl, rfl, rfl, rfl, rfl, rfl, rfl,
        Or.inl ⟨rfl, rfl⟩⟩
    · exact ⟨3, ⟨"SKIP_PACK", {}⟩, rfl, rfl, rfl, rfl, rfl, rfl, rfl, rfl,
        Or.inl ⟨rfl, rfl⟩⟩
    · rcases hm with rfl | rfl
      · exact ⟨4, ⟨"SORT_HAND", { mode := some "rank" }⟩, by decide, by decide,
          rfl, rfl, rfl, rfl, rfl, rfl, Or.inl ⟨rfl, rfl⟩⟩
      · exact ⟨5, ⟨"SORT_HAND", { mode := some "suit" }⟩, by decide, by decide,
          rfl, rfl, rfl, rfl, rfl, rfl, Or.inl ⟨rfl, rfl⟩⟩
    · -- PLAY_HAND with positions l ⊆ [1,10]
      have hb : card_indices_to_bitmap l < 1024 := card_indices_to_bitmap_lt l
      refine ⟨(play_hand_offset : Int) + card_indices_to_bitmap l,
        ActionRequest.mk "PLAY_HAND"
          (ActionParams.mk none (some (bitmap_to_card_indices (card_indices_to_bitmap l)))
            none none none none),
        encode_play_hand_eq l, ?_, ?_⟩
      · have hlo : (10 : Int) ≤ (play_hand_offset : Int) + card_indices_to_bitmap l := by
          simp only [play_hand_offset_eq]; push_cast; omega
        have hhi : (play_hand_offset : Int) + card_indices_to_bitmap l < 1034 := by
          simp only [play_hand_offset_eq]; push_cast; omega
        rw [decode_play_hand _ hlo hhi]
        have harg : ((play_hand_offset : Int) + card_indices_to_bitmap l - 10).toNat =
            card_indices_to_bitmap l := by
          simp only [play_hand_offset_eq]; push_cast; omega
        rw [harg]
      · refine ⟨rfl, rfl, rfl, rfl, rfl, rfl, Or.inr ⟨_, _, rfl, rfl, ?_⟩⟩
        intro x
        exact mem_b2c_bitmap l (by rw [MAX_HAND_SIZE_eq]; exact hl) x
    · -- DISCARD with positions l ⊆ [1,10]
      have hb : card_indices_to_bitmap l < 1024 := card_indices_to_bitmap_lt l
      refine ⟨(discard_offset : Int) + card_indices_to_bitmap l,
        ActionRequest.mk "DISCARD"
          (ActionParams.mk none (some (bitmap_to_card_indices (card_indices_to_bitmap l)))
            none none none none),
        encode_discard_eq l, ?_, ?_⟩
      · have hlo : (1034 : Int) ≤ (discard_offset : Int) + card_indices_to_bitmap l := by
          simp only [discard_offset_eq]; push_cast; omega
        have hhi : (discard_offset : Int) + card_indices_to_bitmap l < 2058 := by
          simp only [discard_offset_eq]; push_cast; omega
        rw [decode_discard _ hlo hhi]
        have harg : ((discard_offset : Int) + card_indices_to_bitmap l - 1034).toNat =
            card_indices_to_bitmap l := by
          simp only [discard_offset_eq]; push_cast; omega
        rw [harg]
      · refine ⟨rfl, rfl, rfl, rfl, rfl, rfl, Or.inr ⟨_, _, rfl, rfl, ?_⟩⟩
        intro x
        exact mem_b2c_bitmap l (by rw [MAX_HAND_SIZE_eq]; exact hl) x
    · -- SHOP_BUY with slot s in [1,6]
      refine ⟨(shop_buy_offset : Int) + s - 1,
        ActionRequest.mk "SHOP_BUY"
          (ActionParams.mk none none (some ((shop_buy_offset : Int) + s - 1 - 2058 + 1))
            none none none),
        encode_shop_buy_eq s, ?_, ?_⟩
      · exact decode_shop_buy _ (by simp only [shop_buy_offset_eq]; push_cast; omega)
          (by simp only [shop_buy_offset_eq]; push_cast; omega)
      · refine ⟨rfl, rfl, ?_, rfl, rfl, rfl, Or.inl ⟨rfl, rfl⟩⟩
        simp only [Option.some.injEq, shop_buy_offset_eq]
        push_cast
        omega
    · -- SHOP_SELL_JOKER with joker index in [1,5]
      refine ⟨(sell_joker_offset : Int) + j - 1,
        ActionRequest.mk "SHOP_SELL_JOKER"
          (ActionParams.mk none none none
            (some ((sell_joker_offset : Int) + j - 1 - 2064 + 1)) none none),
        encode_sell_joker_eq j, ?_, ?_⟩
      · exact decode_sell_joker _ (by simp only [sell_joker_offset_eq]; push_cast; omega)
          (by simp only [sell_joker_offset_eq]; push_cast; omega)
      · refine ⟨rfl, rfl, rfl, ?_, rfl, rfl, Or.inl ⟨rfl, rfl⟩⟩
        simp only [Option.some.injEq, sell_joker_offset_eq]
        push_cast
        omega
    · -- SELECT_PACK_ITEM with choice index in [1,5]
      refine ⟨(pack_select_offset : Int) + c - 1,
        ActionRequest.mk "SELECT_PACK_ITEM"
          (ActionParams.mk none none none none
            (some ((pack_select_offset : Int) + c - 1 - 2069 + 1)) none),
        encode_pack_select_eq c, ?_, ?_⟩
      · exact decode_pack_select _ (by simp only [pack_select_offset_eq]; push_cast; omega)
          (by simp only [pack_select_offset_eq]; push_cast; omega)
      · refine ⟨rfl, rfl, rfl, rfl, ?_, rfl, Or.inl ⟨rfl, rfl⟩⟩
        simp only [Option.some.injEq, pack_select_offset_eq]
        push_cast
        omega
    · -- SELECT_BLIND with one of the three documented options
      rcases ho with rfl | rfl | rfl
      · exact ⟨2074, ⟨"SELECT_BLIND", { opt := some "small" }⟩, by decide, by decide,
          rfl, rfl, rfl, rfl, rfl, rfl, Or.inl ⟨rfl, rfl⟩⟩
      · exact ⟨2075, ⟨"SELECT_BLIND", { opt := some "big" }⟩, by decide, by decide,
          rfl, rfl, rfl, rfl, rfl, rfl, Or.inl ⟨rfl, rfl⟩⟩
      · exact ⟨2076, ⟨"SELECT_BLIND", { opt := some "boss" }⟩, by decide, by decide,
          rfl, rfl, rfl, rfl, rfl, rfl, Or.inl ⟨rfl, rfl⟩⟩

/-- C3 witness: the round-trip evaluated at the concrete index 10 and at a
concrete documented SHOP_BUY action. -/
theorem C3_witness :
    (decode_action 10).bind encode_action = .ok 10 ∧
    (∃ idx b, encode_action { type := "SHOP_BUY", params := { slot := some 3 } } = .ok idx ∧
      decode_action idx = .ok b ∧
      sem_eq b { type := "SHOP_BUY", params := { slot := some 3 } }) := by
  constructor
  · exact C3_round_trip.1 10 (by norm_num) (by decide) (by decide)
  · apply C3_round_trip.2
    unfold in_documented_domain
    refine Or.inr (Or.inr (Or.inr (Or.inr (Or.inr (Or.inr (Or.inr (Or.inl ?_)))))))
    exact ⟨rfl, 3, by norm_num, by norm_num, rfl⟩

/-! ## Claim C4: encode error handling -/

/-- C4 counterexample: SHOP_BUY with its required `slot` parameter absent
does not fail -- the codec silently substitutes the default slot 1 and
returns the first SHOP_BUY index. -/
theorem C4_counterexample :
    encode_action { type := "SHOP_BUY" } = .ok 2058 := by
  decide

/-- C4 (amended): encode fails with the unknown-action-kind `ValueError`
exactly when the tag is not one of the 11 recognized kinds; but when a
required parameter is absent the codec does NOT fail with
`InvalidParameter` -- it substitutes a default (mode="rank",
card_indices=[], slot=1, joker_index=1, choice_index=1, option="small")
and encodes that default instead. -/
theorem C4_unknown_kind_and_defaults :
    (∀ a : ActionRequest, a.type ∉ documented_kinds →
      encode_action a = .error ("Unknown action type: " ++ a.type)) ∧
    encode_action { type := "SORT_HAND" } = .ok 4 ∧
    encode_action { type := "PLAY_HAND" } = .ok 10 ∧
    encode_action { type := "DISCARD" } = .ok 1034 ∧
    encode_action { type := "SHOP_BUY" } = .ok 2058 ∧
    encode_action { type := "SHOP_SELL_JOKER" } = .ok 2064 ∧
    encode_action { type := "SELECT_PACK_ITEM" } = .ok 2069 ∧
    encode_action { type := "SELECT_BLIND" } = .ok 2074 := by
  refine ⟨?_, by decide, by decide, by decide, by decide, by decide, by decide, by decide⟩
  intro a ha
  simp only [documented_kinds, List.mem_cons, List.not_mem_nil, or_false, not_or] at ha
  obtain ⟨hph, hdi, hso, hsb, hre, hsj, hse, hbl, hskb, hpi, hskp⟩ := ha
  simp only [encode_action]
  rw [if_neg hre, if_neg hse, if_neg hskb, if_neg hskp, if_neg hso, if_neg hph,
    if_neg hdi, if_neg hsb, if_neg hsj, if_neg hpi, if_neg hbl]

/-- C4 witness: the unknown-kind branch applied at a concrete
unrecognized tag. -/
theorem C4_witness :
    encode_action { type := "FOO" } = .error ("Unknown action type: " ++ "FOO") :=
  C4_unknown_kind_and_defaults.1 { type := "FOO" } (by decide)

/-! ## Game-state data model (schemas.py)

Fields not read by any of the code under verification (schema_version,
timestamp_ms, run_id, hands_played, pack, hand_levels, card facing,
area indices, blind debuff text, shop reroll cost) are omitted; every
field the reward function, termination check, step loop and tokenizer
read is present with the schema defaults. -/

inductive GamePhase where
  | MENU | SPLASH | SELECTING_HAND | HAND_PLAYED | DRAW_TO_HAND
  | BLIND_SELECT | SHOP | PACK_OPENING | UNKNOWN
  deriving DecidableEq, Repr

structure BlindData where
  name : Option String := none
  chips_needed : Option Int := none
  chips_scored : Int := 0
  boss : Bool := false
  deriving DecidableEq, Repr

structure CardData where
  id : String := ""
  rank : Option String := none  -- the schema coerces numeric ranks to strings
  suit : Option String := none
  edition : Option String := none
  enhancement : Option String := none
  seal_kind : Option String := none  -- the schema field `seal` (Lean keyword)
  debuffed : Bool := false
  highlighted : Bool := false
  hand_index : Option Int := none
  deriving DecidableEq, Repr

structure JokerData where
  id : String := ""
  name : Option String := none
  key : Option String := none
  rarity : Option Int := none
  sell_cost : Int := 0
  ability_keys : Option (List String) := none  -- keys of the optional ability dict
  deriving DecidableEq, Repr

structure ConsumableData where
  index : Int := 0
  name : Option String := none
  key : Option String := none
  deriving DecidableEq, Repr

structure ShopItem where
  slot : Int := 0
  name : Option String := none
  cost : Int := 0
  type : String := "unknown"
  deriving DecidableEq, Repr

structure ShopData where
  items : List ShopItem := []
  deriving DecidableEq, Repr

structure DeckCounts where
  deck_size : Int := 0
  discard_size : Int := 0
  deriving DecidableEq, Repr

structure GameState where
  phase : GamePhase
  error : Option String := none
  round : Int := 0
  ante : Int := 0
  money : Int := 0
  hands_remaining : Int := 0
  discards_remaining : Int := 0
  blind : Option BlindData := none
  hand : List CardData := []
  jokers : List JokerData := []
  consumables : List ConsumableData := []
  shop : Option ShopData := none
  deck_counts : DeckCounts := {}
  deriving DecidableEq, Repr

/-! ## BalatroEnv._compute_reward (env.py lines 126-174)

Python float arithmetic is modelled over `ℚ`; every constant involved
(1000.0, 0.01, 10.0, 100.0) is an exact decimal fraction. -/

def compute_reward (prev_state : Option GameState) (new_state : GameState) : ℚ :=
  match prev_state with
  | none => 0
  | some prev =>
    -- Money gained
    let reward : ℚ := ((new_state.money - prev.money : Int) : ℚ)
    -- Chips scored (only positive deltas)
    let prev_chips := match prev.blind with | some b => b.chips_scored | none => 0
    let new_chips := match new_state.blind with | some b => b.chips_scored | none => 0
    let chip_diff := new_chips - prev_chips
    let reward := reward + (if chip_diff > 0 then ((chip_diff : ℚ) / 1000) * (1 / 100) else 0)
    -- Blind completion: `if prev_blind_name and new_blind_name and prev != new`
    -- (Python truthiness: None and "" are both falsy)
    let prev_blind_name := match prev.blind with | some b => b.name | none => none
    let new_blind_name := match new_state.blind with | some b => b.name | none => none
    let reward := reward +
      (if prev_blind_name.getD "" ≠ "" ∧ new_blind_name.getD "" ≠ "" ∧
          prev_blind_name ≠ new_blind_name then (10 : ℚ) else 0)
    -- Ante completion
    let reward := reward + (if new_state.ante > prev.ante then (100 : ℚ) else 0)
    -- Game over: phase transitions into MENU from a non-MENU phase
    let reward := reward -
      (if new_state.phase = GamePhase.MENU ∧ prev.phase ≠ GamePhase.MENU then (100 : ℚ) else 0)
    reward

/-! ## BalatroEnv._is_terminal (env.py lines 176-197) -/

def is_terminal (state : GameState) (step_count : Nat) (max_steps : Nat) : Bool :=
  -- Game over if returned to menu
  if state.phase = GamePhase.MENU ∨ state.phase = GamePhase.SPLASH then true
  -- Max steps reached
  else if step_count ≥ max_steps then true
  -- Error state (`if state.error:` -- None and "" are falsy)
  else if state.error.getD "" ≠ "" then true
  else false

/-! ## BalatroEnv.step (env.py lines 237-281) -/

structure ActionResult where
  ok : Bool
  error : Option String := none
  state : Option GameState := none
  deriving DecidableEq, Repr

/-- What the Bridge does during the `try` block of `step`: either some call
raises `BalatroConnectionError` (with its message), or `execute_action`
returns a result, in which case `refetched` is what re-fetching
`get_state()` would return on the failure path. -/
inductive BridgeStep where
  | raises (msg : String)
  | returns (result : ActionResult) (refetched : GameState)
  deriving DecidableEq, Repr

/-- The state `step` adopts: the result's state on `result.ok and
result.state`, otherwise the re-fetched current state. -/
def adopted_state (result : ActionResult) (refetched : GameState) : GameState :=
  match result.state with
  | some st => if result.ok then st else refetched
  | none => refetched

structure StepOutcome where
  reward : ℚ
  terminated : Bool
  truncated : Bool
  error_info : Option String  -- `info["error"]` on the connection-failure path
  deriving DecidableEq, Repr

structure StepResult where
  outcome : Except String StepOutcome  -- `.error` = exception propagated to the caller
  step_count : Nat                     -- `env._step_count` after the call
  current_state : Option GameState     -- `env._current_state` after the call
  connected : Bool                     -- `env._connected` after the call
  deriving DecidableEq, Repr

def env_step (max_steps : Nat) (step_count : Nat) (connected : Bool)
    (current_state : Option GameState) (action : Int) (bridge : BridgeStep) : StepResult :=
  -- self._step_count += 1 (before anything can fail)
  let step_count' := step_count + 1
  let prev_state := current_state
  match decode_action action with
  | .error e =>
    -- decode failure propagates to the caller as an exception
    { outcome := .error e, step_count := step_count', current_state := current_state,
      connected := connected }
  | .ok _ =>
    match bridge with
    | .raises msg =>
      -- Connection lost: fixed penalty, terminal, not truncated, error info
      { outcome := .ok { reward := -100, terminated := true, truncated := false,
                         error_info := some msg },
        step_count := step_count', current_state := prev_state, connected := false }
    | .returns result refetched =>
      let new_state := adopted_state result refetched
      let reward := compute_reward prev_state new_state
      let terminated := is_terminal new_state step_count' max_steps
      let truncated := decide (step_count' ≥ max_steps)
      { outcome := .ok { reward := reward, terminated := terminated, truncated := truncated,
                         error_info := none },
        step_count := step_count', current_state := some new_state, connected := connected }

theorem is_terminal_iff (s : GameState) (c m : Nat) :
    is_terminal s c m = true ↔
      (s.phase = GamePhase.MENU ∨ s.phase = GamePhase.SPLASH ∨ m ≤ c ∨
        s.error.getD "" ≠ "") := by
  unfold is_terminal
  split_ifs with h1 h2 h3
  · simp only [true_iff]
    tauto
  · simp only [true_iff]
    right; right; left; omega
  · simp only [true_iff]
    tauto
  · simp only [Bool.false_eq_true, false_iff]
    push_neg at h1 ⊢
    refine ⟨h1.1, h1.2, by omega, by simpa using h3⟩

/-! ## Claim C5 -/

/-- C5 counterexample: a successful step into a SHOP-phase, error-free
snapshot with the step budget just reached reports `terminated = true`,
although the new phase is neither MENU nor SPLASH and no error is set. -/
theorem C5_counterexample :
    (env_step 1 0 true (some { phase := GamePhase.SHOP }) 0
        (.returns { ok := true, state := some { phase := GamePhase.SHOP } }
          { phase := GamePhase.SHOP })).outcome =
      .ok { reward := 0, terminated := true, truncated := true, error_info := none } ∧
    GamePhase.SHOP ≠ GamePhase.MENU ∧ GamePhase.SHOP ≠ GamePhase.SPLASH ∧
    ({ phase := GamePhase.SHOP } : GameState).error = none := by
  have hdec : decode_action 0 = .ok { type := "SHOP_REROLL" } := by decide
  refine ⟨?_, by decide, by decide, rfl⟩
  unfold env_step
  rw [hdec]
  simp only [adopted_state]
  norm_num [compute_reward, is_terminal]

/-- C5 (amended): on a step without a bridge-connectivity failure,
`truncated` is true exactly when the incremented step counter has reached
the max-steps budget, but `terminated` is true when the new phase is MENU
or SPLASH, OR the snapshot carries a (non-empty) error, OR the step budget
has been reached -- the two flags are not independent: `_is_terminal` also
checks the step budget, so `truncated = true` forces `terminated = true`. -/
theorem C5_termination_flags (max_steps step_count : Nat) (connected : Bool)
    (prev : Option GameState) (action : Int) (result : ActionResult)
    (refetched : GameState) (a : ActionRequest)
    (hdec : decode_action action = .ok a) :
    ∃ out : StepOutcome,
      (env_step max_steps step_count connected prev action
        (.returns result refetched)).outcome = .ok out ∧
      (out.terminated = true ↔
        ((adopted_state result refetched).phase = GamePhase.MENU ∨
         (adopted_state result refetched).phase = GamePhase.SPLASH ∨
         (adopted_state result refetched).error.getD "" ≠ "" ∨
         max_steps ≤ step_count + 1)) ∧
      (out.truncated = true ↔ max_steps ≤ step_count + 1) := by
  unfold env_step
  rw [hdec]
  refine ⟨_, rfl, ?_, ?_⟩
  · rw [is_terminal_iff]
    tauto
  · simp

/-- C5 witness: the flag characterization applied at a concrete
SHOP-phase transition with the budget not yet reached. -/
theorem C5_witness :
    ∃ out : StepOutcome,
      (env_step 100 0 true (some { phase := GamePhase.SHOP }) 0
        (.returns { ok := true, state := some { phase := GamePhase.SHOP } }
          { phase := GamePhase.SHOP })).outcome = .ok out ∧
      (out.terminated = true ↔
        (({ phase := GamePhase.SHOP } : GameState).phase = GamePhase.MENU ∨
         ({ phase := GamePhase.SHOP } : GameState).phase = GamePhase.SPLASH ∨
         ({ phase := GamePhase.SHOP } : GameState).error.getD "" ≠ "" ∨
         100 ≤ 0 + 1)) ∧
      (out.truncated = true ↔ 100 ≤ 0 + 1) :=
  C5_termination_flags 100 0 true (some { phase := GamePhase.SHOP }) 0
    { ok := true, state := some { phase := GamePhase.SHOP } }
    { phase := GamePhase.SHOP } { type := "SHOP_REROLL" } (by decide)

/-! ## Claim C6 -/

/-- C6 (confirmed): when the bridge submission raises a connectivity
failure, `step` returns (rather than raising) reward -100.0,
terminated = true, truncated = false, with the error message in the info
annotation, and the step counter has still been incremented by exactly
one. -/
theorem C6_bridge_unreachable (max_steps step_count : Nat) (connected : Bool)
    (prev : Option GameState) (action : Int) (msg : String) (a : ActionRequest)
    (hdec : decode_action action = .ok a) :
    env_step max_steps step_count connected prev action (.raises msg) =
      { outcome := .ok { reward := -100, terminated := true, truncated := false,
                         error_info := some msg },
        step_count := step_count + 1, current_state := prev, connected := false } := by
  unfold env_step
  rw [hdec]

/-- C6 witness: the unreachable-bridge behaviour at concrete inputs. -/
theorem C6_witness :
    env_step 10 3 true (some { phase := GamePhase.SHOP }) 1 (.raises "connection refused") =
      { outcome := .ok { reward := -100, terminated := true, truncated := false,
                         error_info := some "connection refused" },
        step_count := 4, current_state := some { phase := GamePhase.SHOP },
        connected := false } :=
  C6_bridge_unreachable 10 3 true (some { phase := GamePhase.SHOP }) 1 "connection refused"
    { type := "SHOP_END" } (by decide)

/-! ## Claim C8 -/

/-- C8 (confirmed): the documented reward scenario yields exactly 5.02
(money delta 5 plus 1e-5 * 2000 = 0.02, no blind-name bonus, no ante
bonus, no menu penalty), and a null previous state always yields 0. -/
theorem C8_reward_scenario :
    compute_reward
        (some { phase := GamePhase.SELECTING_HAND, money := 10, ante := 1,
                blind := some { name := some "Small Blind", chips_scored := 0 } })
        { phase := GamePhase.HAND_PLAYED, money := 15, ante := 1,
          blind := some { name := some "Small Blind", chips_scored := 2000 } } = 5.02 ∧
    ∀ new_state : GameState, compute_reward none new_state = 0 := by
  exact ⟨by norm_num [compute_reward]; decide, fun _ => rfl⟩

/-! ## Legal actions data model (schemas.py LegalAction/LegalActions)

The `card_indices` parameter of a legal action is a raw dict with keys
"available"/"min_select"/"max_select"; `some ci` models a present,
non-empty dict (the Python guard `if params and params.card_indices:`
treats None and the empty dict as falsy). -/

structure CardIndicesSpec where
  available : Option (List Int) := none
  min_select : Option Nat := none
  max_select : Option Nat := none
  deriving DecidableEq, Repr

structure LegalActionParams where
  card_indices : Option CardIndicesSpec := none
  slot : Option Int := none
  joker_index : Option Int := none
  choice_index : Option Int := none
  deriving DecidableEq, Repr

structure LegalAction where
  type : String
  params : LegalActionParams := {}
  deriving DecidableEq, Repr

structure LegalActions where
  actions : List LegalAction
  deriving DecidableEq, Repr

/-! ## ActionEncoder.get_legal_action_mask (action_space.py lines 185-256) -/

/-- `itertools.combinations`: all sublists of `l` of length `k`, in the
order itertools yields them. -/
def combinations {α : Type} : Nat → List α → List (List α)
  | 0, _ => [[]]
  | _ + 1, [] => []
  | k + 1, x :: xs => ((combinations k xs).map (fun c => x :: c)) ++ combinations (k + 1) xs

theorem mem_combinations {α : Type} :
    ∀ (k : Nat) (l c : List α), c ∈ combinations k l ↔ c.Sublist l ∧ c.length = k := by
  intro k l
  induction l generalizing k with
  | nil =>
    intro c
    cases k with
    | zero =>
      simp only [combinations, List.mem_singleton]
      constructor
      · rintro rfl; exact ⟨List.Sublist.refl _, rfl⟩
      · rintro ⟨hs, _⟩; exact List.sublist_nil.mp hs
    | succ n =>
      simp only [combinations, List.not_mem_nil, false_iff, not_and]
      intro hs
      rw [List.sublist_nil.mp hs]
      simp
  | cons a t ih =>
    intro c
    cases k with
    | zero =>
      simp only [combinations, List.mem_singleton]
      constructor
      · rintro rfl; exact ⟨List.nil_sublist _, rfl⟩
      · rintro ⟨_, hl⟩; exact List.length_eq_zero.mp hl
    | succ n =>
      simp only [combinations, List.mem_append, List.mem_map]
      constructor
      · rintro (⟨c', hc', rfl⟩ | hc)
        · have h := (ih n c').mp hc'
          exact ⟨h.1.cons₂ a, by simp [h.2]⟩
        · have h := (ih (n + 1) c).mp hc
          exact ⟨h.1.cons a, h.2⟩
      · rintro ⟨hs, hl⟩
        rcases List.sublist_cons_iff.mp hs with h | ⟨r, rfl, hr⟩
        · exact Or.inr ((ih (n + 1) c).mpr ⟨h, hl⟩)
        · exact Or.inl ⟨r, (ih n r).mpr ⟨hr, by simpa using hl⟩, rfl⟩

/-- The bitmap indices one PLAY_HAND/DISCARD legal action marks: every
combination of the declared available positions whose size lies in
`range(min_select, min(max_select, len(available)) + 1)`. -/
def card_selection_marks (ci : CardIndicesSpec) (hand_size : Nat) (region_offset : Nat) :
    List Nat :=
  -- available = ci.get("available", list(range(1, hand_size + 1)))
  let available := ci.available.getD ((List.range' 1 hand_size).map (fun k => (k : Int)))
  let min_select := ci.min_select.getD 1
  let max_select := ci.max_select.getD 5
  (List.range' min_select (min max_select available.length + 1 - min_select)).flatMap
    (fun size => (combinations size available).map
      (fun combo => region_offset + card_indices_to_bitmap combo))

/-- The mask indices a single legal action sets to true (the body of the
`for action in legal_actions.actions` loop, one branch per action kind). -/
def action_mark_indices (la : LegalAction) (hand_size : Nat) : List Nat :=
  if la.type = "SHOP_REROLL" then [(simple_actions_get "SHOP_REROLL").getD 0]
  else if la.type = "SHOP_END" then [(simple_actions_get "SHOP_END").getD 0]
  else if la.type = "SKIP_BLIND" then [(simple_actions_get "SKIP_BLIND").getD 0]
  else if la.type = "SKIP_PACK" then [(simple_actions_get "SKIP_PACK").getD 0]
  else if la.type = "SORT_HAND" then
    [(simple_actions_get "SORT_HAND_RANK").getD 0, (simple_actions_get "SORT_HAND_SUIT").getD 0]
  else if la.type = "PLAY_HAND" then
    match la.params.card_indices with
    | some ci => card_selection_marks ci hand_size play_hand_offset
    | none => []
  else if la.type = "DISCARD" then
    match la.params.card_indices with
    | some ci => card_selection_marks ci hand_size discard_offset
    | none => []
  else if la.type = "SHOP_BUY" then
    match la.params.slot with
    | some slot =>
      if slot ≠ 0 then  -- `if params and params.slot:` (0 is falsy)
        if 1 ≤ slot ∧ slot ≤ (MAX_SHOP_SLOTS : Int) then
          [shop_buy_offset + (slot - 1).toNat]
        else []
      else []
    | none => []
  else if la.type = "SHOP_SELL_JOKER" then
    match la.params.joker_index with
    | some joker_idx =>
      if joker_idx ≠ 0 then
        if 1 ≤ joker_idx ∧ joker_idx ≤ (MAX_JOKERS : Int) then
          [sell_joker_offset + (joker_idx - 1).toNat]
        else []
      else []
    | none => []
  else if la.type = "SELECT_PACK_ITEM" then
    match la.params.choice_index with
    | some choice_idx =>
      if choice_idx ≠ 0 then
        if 1 ≤ choice_idx ∧ choice_idx ≤ (MAX_PACK_CHOICES : Int) then
          [pack_select_offset + (choice_idx - 1).toNat]
        else []
      else []
    | none => []
  else if la.type = "SELECT_BLIND" then
    -- all three blind options
    (List.range 3).map (fun i => blind_select_offset + i)
  else []

/-- Successive `mask[i] = True` assignments. -/
def markAll (mask : List Bool) (idxs : List Nat) : List Bool :=
  idxs.foldl (fun m i => m.set i true) mask

def get_legal_action_mask (legal : LegalActions) (hand_size : Nat) : List Bool :=
  legal.actions.foldl (fun mask la => markAll mask (action_mark_indices la hand_size))
    (List.replicate action_space_size false)

/-! ## Mask lemmas -/

theorem getD_set_true (m : List Bool) (i n : Nat) :
    ((m.set i true).getD n false = true) ↔ ((n = i ∧ i < m.length) ∨ m.getD n false = true) := by
  rw [List.getD_eq_getElem?_getD, List.getD_eq_getElem?_getD, List.getElem?_set]
  by_cases h : i = n
  · subst h
    rw [if_pos rfl]
    by_cases hl : i < m.length
    · simp [hl]
    · simp only [if_neg hl]
      simp only [List.getElem?_eq_none (by omega : m.length ≤ i)]
      simp [hl]
  · rw [if_neg h]
    constructor
    · exact fun hh => Or.inr hh
    · rintro (⟨rfl, _⟩ | hh)
      · exact absurd rfl h
      · exact hh

theorem length_markAll (m : List Bool) (I : List Nat) :
    (markAll m I).length = m.length := by
  induction I generalizing m with
  | nil => rfl
  | cons i t ih =>
    show (markAll (m.set i true) t).length = m.length
    rw [ih, List.length_set]

theorem markAll_getD (I : List Nat) (m : List Bool) (n : Nat) :
    ((markAll m I).getD n false = true) ↔
      ((n ∈ I ∧ n < m.length) ∨ m.getD n false = true) := by
  induction I generalizing m with
  | nil => simp [markAll]
  | cons i t ih =>
    show ((markAll (m.set i true) t).getD n false = true) ↔ _
    rw [ih, List.length_set]
    constructor
    · rintro (⟨hmem, hlt⟩ | h)
      · exact Or.inl ⟨List.mem_cons_of_mem i hmem, hlt⟩
      · rcases (getD_set_true m i n).mp h with ⟨rfl, hlt⟩ | h
        · exact Or.inl ⟨List.mem_cons_self _ _, hlt⟩
        · exact Or.inr h
    · rintro (⟨hmem, hlt⟩ | h)
      · rcases List.mem_cons.mp hmem with rfl | hmem
        · exact Or.inr ((getD_set_true m n n).mpr (Or.inl ⟨rfl, hlt⟩))
        · exact Or.inl ⟨hmem, hlt⟩
      · exact Or.inr ((getD_set_true m i n).mpr (Or.inr h))

theorem foldl_markAll_getD (acts : List LegalAction) (hs : Nat) (init : List Bool) (n : Nat) :
    ((acts.foldl (fun mask la => markAll mask (action_mark_indices la hs)) init).getD n false
        = true) ↔
      ((∃ la ∈ acts, n ∈ action_mark_indices la hs) ∧ n < init.length) ∨
        init.getD n false = true := by
  induction acts generalizing init with
  | nil => simp
  | cons a t ih =>
    show ((t.foldl _ (markAll init (action_mark_indices a hs))).getD n false = true) ↔ _
    rw [ih, length_markAll, markAll_getD]
    constructor
    · rintro (⟨⟨la, hla, hmem⟩, hlt⟩ | (⟨hmem, hlt⟩ | h))
      · exact Or.inl ⟨⟨la, List.mem_cons_of_mem a hla, hmem⟩, hlt⟩
      · exact Or.inl ⟨⟨a, List.mem_cons_self _ _, hmem⟩, hlt⟩
      · exact Or.inr h
    · rintro (⟨⟨la, hla, hmem⟩, hlt⟩ | h)
      · rcases List.mem_cons.mp hla with rfl | hla
        · exact Or.inr (Or.inl ⟨hmem, hlt⟩)
        · exact Or.inl ⟨⟨la, hla, hmem⟩, hlt⟩
      · exact Or.inr (Or.inr h)

/-- The mask is true at `n` exactly when `n < ACTION_SPACE_SIZE` and some
legal action marks `n`. -/
theorem mask_getD_iff (legal : LegalActions) (hs n : Nat) :
    ((get_legal_action_mask legal hs).getD n false = true) ↔
      (n < action_space_size ∧ ∃ la ∈ legal.actions, n ∈ action_mark_indices la hs) := by
  unfold get_legal_action_mask
  rw [foldl_markAll_getD]
  simp only [List.length_replicate, List.getD_eq_getElem?_getD, List.getElem?_replicate]
  constructor
  · rintro (⟨h1, h2⟩ | h)
    · exact ⟨h2, h1⟩
    · by_cases hn : n < action_space_size <;> simp [hn] at h
  · rintro ⟨h1, h2⟩
    exact Or.inl ⟨h2, h1⟩

theorem length_get_legal_action_mask (legal : LegalActions) (hs : Nat) :
    (get_legal_action_mask legal hs).length = action_space_size := by
  unfold get_legal_action_mask
  have haux : ∀ (acts : List LegalAction) (init : List Bool),
      (acts.foldl (fun mask la => markAll mask (action_mark_indices la hs)) init).length
        = init.length := by
    intro acts
    induction acts with
    | nil => intro init; rfl
    | cons a t ih =>
      intro init
      show (t.foldl _ (markAll init (action_mark_indices a hs))).length = init.length
      rw [ih, length_markAll]
  rw [haux, List.length_replicate]

/-! ## Claim C7 -/

/-- The card_indices parameter dict `{"available": A, "min_select": m,
"max_select": M}`. -/
def play_hand_ci (A : List Int) (m M : Nat) : CardIndicesSpec where
  available := some A
  min_select := some m
  max_select := some M

/-- A legal-action set holding exactly one PLAY_HAND entry with the given
available positions and selection-size bounds. -/
def play_hand_legal (A : List Int) (m M : Nat) : LegalActions where
  actions := [{ type := "PLAY_HAND", params := { card_indices := some (play_hand_ci A m M) } }]

theorem play_hand_marks_eval (A : List Int) (m M hs : Nat) :
    action_mark_indices
        { type := "PLAY_HAND", params := { card_indices := some (play_hand_ci A m M) } } hs =
      (List.range' m (min M A.length + 1 - m)).flatMap
        (fun size => (combinations size A).map
          (fun combo => play_hand_offset + card_indices_to_bitmap combo)) := rfl

set_option maxRecDepth 1000000 in
/-- C7 (confirmed): for a legal-action set with a PLAY_HAND entry carrying
available positions `A`, `min_select = m` and `max_select = M`, the mask is
true exactly at the PLAY_HAND-region indices of the combinations of `A`
whose size lies in `[m, M]`; the mask does not depend on `hand_size`
(`A` is authoritative); and in the concrete scenario `A = [1,2,3]`,
`m = 1`, `M = 2` the mask has exactly 6 true entries, all inside the
PLAY_HAND region. -/
theorem C7_play_hand_mask (A : List Int) (m M hs hs' n : Nat) :
    ((get_legal_action_mask (play_hand_legal A m M) hs).getD n false = true ↔
      (∃ S : List Int, S.Sublist A ∧ m ≤ S.length ∧ S.length ≤ M ∧
        n = play_hand_offset + card_indices_to_bitmap S)) ∧
    get_legal_action_mask (play_hand_legal A m M) hs
      = get_legal_action_mask (play_hand_legal A m M) hs' ∧
    ((get_legal_action_mask (play_hand_legal [1, 2, 3] 1 2) 8).count true = 6) ∧
    (∀ k : Nat, (get_legal_action_mask (play_hand_legal [1, 2, 3] 1 2) 8).getD k false = true →
      play_hand_offset ≤ k ∧ k < discard_offset) := by
  have hgen : ∀ (A : List Int) (m M hs n : Nat),
      ((get_legal_action_mask (play_hand_legal A m M) hs).getD n false = true ↔
        (∃ S : List Int, S.Sublist A ∧ m ≤ S.length ∧ S.length ≤ M ∧
          n = play_hand_offset + card_indices_to_bitmap S)) := by
    intro A m M hs n
    rw [mask_getD_iff]
    constructor
    · rintro ⟨hlt, la, hla, hmem⟩
      simp only [play_hand_legal, List.mem_singleton] at hla
      subst hla
      rw [play_hand_marks_eval] at hmem
      simp only [List.mem_flatMap, List.mem_map, List.mem_range'_1, mem_combinations] at hmem
      obtain ⟨size, ⟨hs1, hs2⟩, combo, ⟨hsub, hlen⟩, rfl⟩ := hmem
      have hAlen := hsub.length_le
      exact ⟨combo, hsub, by omega, by omega, rfl⟩
    · rintro ⟨S, hsub, hm, hM, rfl⟩
      have hAlen := hsub.length_le
      have hbit := card_indices_to_bitmap_lt S
      refine ⟨by simp only [action_space_size_eq, play_hand_offset_eq]; omega, ?_⟩
      refine ⟨{ type := "PLAY_HAND", params := { card_indices := some (play_hand_ci A m M) } },
        by simp [play_hand_legal], ?_⟩
      rw [play_hand_marks_eval]
      simp only [List.mem_flatMap, List.mem_map, List.mem_range'_1, mem_combinations]
      exact ⟨S.length, ⟨hm, by omega⟩, S, ⟨hsub, rfl⟩, rfl⟩
  refine ⟨hgen A m M hs n, rfl, by decide, ?_⟩
  intro k hk
  rcases (hgen [1, 2, 3] 1 2 8 k).mp hk with ⟨S, _, _, _, rfl⟩
  have hbit := card_indices_to_bitmap_lt S
  simp only [play_hand_offset_eq, discard_offset_eq]
  omega

/-! ## Claim C10 -/

theorem card_selection_marks_mem (ci : CardIndicesSpec) (hs off n : Nat)
    (h : n ∈ card_selection_marks ci hs off) :
    ∃ combo : List Int, n = off + card_indices_to_bitmap combo := by
  unfold card_selection_marks at h
  simp only [List.mem_flatMap, List.mem_map] at h
  obtain ⟨size, _, combo, _, rfl⟩ := h
  exact ⟨combo, rfl⟩

/-- Every index one legal action marks lies inside the action space and
decodes to an action of the same kind. -/
theorem mark_decodes (la : LegalAction) (hs n : Nat)
    (h : n ∈ action_mark_indices la hs) :
    n < action_space_size ∧ ∃ b, decode_action (n : Int) = .ok b ∧ b.type = la.type := by
  unfold action_mark_indices at h
  by_cases h1 : la.type = "SHOP_REROLL"
  · rw [if_pos h1] at h
    simp only [show (simple_actions_get "SHOP_REROLL").getD 0 = 0 from rfl,
      List.mem_singleton] at h
    subst h
    exact ⟨by decide, ⟨{ type := "SHOP_REROLL" }, by decide, h1.symm⟩⟩
  rw [if_neg h1] at h
  by_cases h2 : la.type = "SHOP_END"
  · rw [if_pos h2] at h
    simp only [show (simple_actions_get "SHOP_END").getD 0 = 1 from rfl,
      List.mem_singleton] at h
    subst h
    exact ⟨by decide, ⟨{ type := "SHOP_END" }, by decide, h2.symm⟩⟩
  rw [if_neg h2] at h
  by_cases h3 : la.type = "SKIP_BLIND"
  · rw [if_pos h3] at h
    simp only [show (simple_actions_get "SKIP_BLIND").getD 0 = 2 from rfl,
      List.mem_singleton] at h
    subst h
    exact ⟨by decide, ⟨{ type := "SKIP_BLIND" }, by decide, h3.symm⟩⟩
  rw [if_neg h3] at h
  by_cases h4 : la.type = "SKIP_PACK"
  · rw [if_pos h4] at h
    simp only [show (simple_actions_get "SKIP_PACK").getD 0 = 3 from rfl,
      List.mem_singleton] at h
    subst h
    exact ⟨by decide, ⟨{ type := "SKIP_PACK" }, by decide, h4.symm⟩⟩
  rw [if_neg h4] at h
  by_cases h5 : la.type = "SORT_HAND"
  · rw [if_pos h5] at h
    simp only [show (simple_actions_get "SORT_HAND_RANK").getD 0 = 4 from rfl,
      show (simple_actions_get "SORT_HAND_SUIT").getD 0 = 5 from rfl,
      List.mem_cons, List.mem_singleton, List.not_mem_nil, or_false] at h
    rcases h with rfl | rfl
    · exact ⟨by decide,
        ⟨{ type := "SORT_HAND", params := { mode := some "rank" } }, by decide, h5.symm⟩⟩
    · exact ⟨by decide,
        ⟨{ type := "SORT_HAND", params := { mode := some "suit" } }, by decide, h5.symm⟩⟩
  rw [if_neg h5] at h
  by_cases h6 : la.type = "PLAY_HAND"
  · rw [if_pos h6] at h
    rcases hci : la.params.card_indices with _ | ci
    · rw [hci] at h; simp at h
    · rw [hci] at h
      obtain ⟨combo, rfl⟩ := card_selection_marks_mem ci hs play_hand_offset n h
      have hbit := card_indices_to_bitmap_lt combo
      have hlo : (10 : Int) ≤ ((play_hand_offset + card_indices_to_bitmap combo : Nat) : Int) := by
        simp only [play_hand_offset_eq]; push_cast; omega
      have hhi : ((play_hand_offset + card_indices_to_bitmap combo : Nat) : Int) < 1034 := by
        simp only [play_hand_offset_eq]; push_cast; omega
      refine ⟨by simp only [action_space_size_eq, play_hand_offset_eq]; omega,
        ⟨_, decode_play_hand _ hlo hhi, h6.symm⟩⟩
  rw [if_neg h6] at h
  by_cases h7 : la.type = "DISCARD"
  · rw [if_pos h7] at h
    rcases hci : la.params.card_indices with _ | ci
    · rw [hci] at h; simp at h
    · rw [hci] at h
      obtain ⟨combo, rfl⟩ := card_selection_marks_mem ci hs discard_offset n h
      have hbit := card_indices_to_bitmap_lt combo
      have hlo : (1034 : Int) ≤ ((discard_offset + card_indices_to_bitmap combo : Nat) : Int) := by
        simp only [discard_offset_eq]; push_cast; omega
      have hhi : ((discard_offset + card_indices_to_bitmap combo : Nat) : Int) < 2058 := by
        simp only [discard_offset_eq]; push_cast; omega
      refine ⟨by simp only [action_space_size_eq, discard_offset_eq]; omega,
        ⟨_, decode_discard _ hlo hhi, h7.symm⟩⟩
  rw [if_neg h7] at h
  by_cases h8 : la.type = "SHOP_BUY"
  · rw [if_pos h8] at h
    rcases hsl : la.params.slot with _ | slot
    · simp only [hsl] at h; simp at h
    · simp only [hsl] at h
      split_ifs at h with ht hr
      · simp only [List.mem_singleton] at h
        subst h
        have hr2 : slot ≤ (6 : Int) := by have := hr.2; simpa using this
        have hr1 := hr.1
        have hlo : (2058 : Int) ≤ ((shop_buy_offset + (slot - 1).toNat : Nat) : Int) := by
          simp only [shop_buy_offset_eq]; push_cast; omega
        have hhi : ((shop_buy_offset + (slot - 1).toNat : Nat) : Int) < 2064 := by
          simp only [shop_buy_offset_eq]; push_cast; omega
        refine ⟨by simp only [action_space_size_eq, shop_buy_offset_eq]; omega,
          ⟨_, decode_shop_buy _ hlo hhi, h8.symm⟩⟩
      · simp at h
      · simp at h
  rw [if_neg h8] at h
  by_cases h9 : la.type = "SHOP_SELL_JOKER"
  · rw [if_pos h9] at h
    rcases hsl : la.params.joker_index with _ | joker_idx
    · simp only [hsl] at h; simp at h
    · simp only [hsl] at h
      split_ifs at h with ht hr
      · simp only [List.mem_singleton] at h
        subst h
        have hr2 : joker_idx ≤ (5 : Int) := by have := hr.2; simpa using this
        have hr1 := hr.1
        have hlo : (2064 : Int) ≤ ((sell_joker_offset + (joker_idx - 1).toNat : Nat) : Int) := by
          simp only [sell_joker_offset_eq]; push_cast; omega
        have hhi : ((sell_joker_offset + (joker_idx - 1).toNat : Nat) : Int) < 2069 := by
          simp only [sell_joker_offset_eq]; push_cast; omega
        refine ⟨by simp only [action_space_size_eq, sell_joker_offset_eq]; omega,
          ⟨_, decode_sell_joker _ hlo hhi, h9.symm⟩⟩
      · simp at h
      · simp at h
  rw [if_neg h9] at h
  by_cases h10 : la.type = "SELECT_PACK_ITEM"
  · rw [if_pos h10] at h
    rcases hsl : la.params.choice_index with _ | choice_idx
    · simp only [hsl] at h; simp at h
    · simp only [hsl] at h
      split_ifs at h with ht hr
      · simp only [List.mem_singleton] at h
        subst h
        have hr2 : choice_idx ≤ (5 : Int) := by have := hr.2; simpa using this
        have hr1 := hr.1
        have hlo : (2069 : Int) ≤ ((pack_select_offset + (choice_idx - 1).toNat : Nat) : Int) := by
          simp only [pack_select_offset_eq]; push_cast; omega
        have hhi : ((pack_select_offset + (choice_idx - 1).toNat : Nat) : Int) < 2074 := by
          simp only [pack_select_offset_eq]; push_cast; omega
        refine ⟨by simp only [action_space_size_eq, pack_select_offset_eq]; omega,
          ⟨_, decode_pack_select _ hlo hhi, h10.symm⟩⟩
      · simp at h
      · simp at h
  rw [if_neg h10] at h
  by_cases h11 : la.type = "SELECT_BLIND"
  · rw [if_pos h11] at h
    simp only [List.mem_map, List.mem_range] at h
    obtain ⟨i, hi, rfl⟩ := h
    have hlo : (2074 : Int) ≤ ((blind_select_offset + i : Nat) : Int) := by
      simp only [blind_select_offset_eq]; push_cast; omega
    have hhi : ((blind_select_offset + i : Nat) : Int) < 2077 := by
      simp only [blind_select_offset_eq]; push_cast; omega
    refine ⟨by simp only [action_space_size_eq, blind_select_offset_eq]; omega,
      ⟨_, decode_select_blind _ hlo hhi, h11.symm⟩⟩
  rw [if_neg h11] at h
  simp at h

/-- C10 (confirmed): every index the legality mask marks true lies in
`[0, ACTION_SPACE_SIZE)` and decodes successfully to an action whose kind
is the kind of the legal action that caused the mark. -/
theorem C10_mask_decode_compat (legal : LegalActions) (hand_size n : Nat)
    (h : (get_legal_action_mask legal hand_size).getD n false = true) :
    n < action_space_size ∧
      ∃ la ∈ legal.actions, ∃ b, decode_action (n : Int) = .ok b ∧ b.type = la.type := by
  rcases (mask_getD_iff legal hand_size n).mp h with ⟨hlt, la, hla, hmem⟩
  obtain ⟨_, b, hb, hty⟩ := mark_decodes la hand_size n hmem
  exact ⟨hlt, la, hla, b, hb, hty⟩

set_option maxRecDepth 1000000 in
/-- C10 witness: the compatibility invariant applied at the concrete
SELECT_BLIND-only legal set and its first marked index 2074. -/
theorem C10_witness :
    (2074 : Nat) < action_space_size ∧
      ∃ la ∈ (⟨[{ type := "SELECT_BLIND" }]⟩ : LegalActions).actions,
        ∃ b, decode_action ((2074 : Nat) : Int) = .ok b ∧ b.type = la.type :=
  C10_mask_decode_compat ⟨[{ type := "SELECT_BLIND" }]⟩ 8 2074 (by decide)

/-! ## ObservationTokenizer (obs_tokenizer.py)

Python's process-level string hash and `math.log10` are opaque numeric
primitives; the embedding abstracts them as parameters `pyhash` (already
reduced to a non-negative representative, as `hash(s) % k` is in Python)
and `log10`.  No claim depends on their values.  Python float arithmetic
is again modelled over `ℚ`. -/

def VOCAB_enhancement : Nat := 15
def VOCAB_joker : Nat := 200
def VOCAB_consumable : Nat := 100
def MAX_CONSUMABLES : Nat := 4
def MAX_SHOP_ITEMS : Nat := 6
def card_features : Nat := 8

/-- `ObservationTokenizer._build_embedding_dims` (obs_tokenizer.py 69-81). -/
def obs_size : Nat :=
  10 + MAX_HAND_SIZE * card_features + MAX_JOKERS * 4 + MAX_CONSUMABLES * 2 +
    MAX_SHOP_ITEMS * 3

/-- `ObservationTokenizer.get_observation_size`. -/
def get_observation_size : Nat := obs_size

/-- `BalatroEnv.__init__` line 64: the advertised observation-space shape. -/
def env_observation_length : Nat := get_observation_size

def RANK_MAP (r : String) : Option Int :=
  if r = "2" then some 2 else if r = "3" then some 3 else if r = "4" then some 4
  else if r = "5" then some 5 else if r = "6" then some 6 else if r = "7" then some 7
  else if r = "8" then some 8 else if r = "9" then some 9 else if r = "10" then some 10
  else if r = "Jack" then some 11 else if r = "Queen" then some 12
  else if r = "King" then some 13 else if r = "Ace" then some 14
  else if r = "J" then some 11 else if r = "Q" then some 12 else if r = "K" then some 13
  else if r = "A" then some 14 else none

def SUIT_MAP (s : String) : Nat :=
  if s = "Hearts" then 1 else if s = "Diamonds" then 2 else if s = "Clubs" then 3
  else if s = "Spades" then 4 else 0

def EDITION_MAP (e : String) : Nat :=
  if e = "foil" then 1 else if e = "holo" then 2 else if e = "polychrome" then 3
  else if e = "negative" then 4 else 0

def SEAL_MAP (s : String) : Nat :=
  if s = "Gold" then 1 else if s = "Red" then 2 else if s = "Blue" then 3
  else if s = "Purple" then 4 else 0

def PHASE_MAP : GamePhase → Nat
  | .MENU => 0 | .SPLASH => 1 | .SELECTING_HAND => 2 | .HAND_PLAYED => 3
  | .DRAW_TO_HAND => 4 | .BLIND_SELECT => 5 | .SHOP => 6 | .PACK_OPENING => 7
  | .UNKNOWN => 8

/-- Python `a or b or ""` on two optional strings (None and "" are falsy). -/
def first_truthy (a b : Option String) : String :=
  match a with
  | some x => if x ≠ "" then x
      else (match b with | some y => if y ≠ "" then y else "" | none => "")
  | none => match b with | some y => if y ≠ "" then y else "" | none => ""

/-- `ObservationTokenizer.tokenize_card` (obs_tokenizer.py 83-126). -/
def tokenize_card (pyhash : String → Nat) (card : CardData) : List ℚ :=
  let rank : Int :=
    match card.rank with
    | none => 0
    | some r =>
      if r = "" then 0  -- `if card.rank:` truthiness
      else match RANK_MAP r with
        | some v => v
        | none =>
          match r.toInt? with  -- `int(card.rank)` inside try/except
          | some v => v
          | none => 0
  let suit : Nat := match card.suit with
    | none => 0
    | some s => if s = "" then 0 else SUIT_MAP s
  let edition : Nat := match card.edition with
    | none => 0
    | some e => if e = "" then 0 else EDITION_MAP e
  let enhancement : Nat := match card.enhancement with
    | none => 0
    | some e => if e = "" then 0 else pyhash e % VOCAB_enhancement
  let seal_val : Nat := match card.seal_kind with
    | none => 0
    | some sl => if sl = "" then 0 else SEAL_MAP sl
  [ (rank : ℚ) / 14,
    (suit : ℚ) / 4,
    (edition : ℚ) / 4,
    (enhancement : ℚ) / (VOCAB_enhancement : ℚ),
    (seal_val : ℚ) / 4,
    if card.debuffed then 1 else 0,
    if card.highlighted then 1 else 0,
    ((card.hand_index.getD 0 : Int) : ℚ) / (MAX_HAND_SIZE : ℚ) ]

/-- `ObservationTokenizer.tokenize_joker` (obs_tokenizer.py 128-145). -/
def tokenize_joker (pyhash : String → Nat) (joker : JokerData) : List ℚ :=
  let joker_id := pyhash (first_truthy joker.key joker.name) % VOCAB_joker
  let rarity : Int := match joker.rarity with
    | some r => if r ≠ 0 then r else 1  -- `(joker.rarity or 1)`
    | none => 1
  [ (joker_id : ℚ) / (VOCAB_joker : ℚ),
    (rarity : ℚ) / 4,
    (joker.sell_cost : ℚ) / 20,
    match joker.ability_keys with
    | some ks => if ks ≠ [] then 1 else 0  -- `1.0 if joker.ability else 0.0`
    | none => 0 ]

/-- `chips_needed = state.blind.chips_needed if state.blind else 0`; when a
blind is present with `chips_needed = None`, the later
`math.log10(max(chips_needed, 1))` raises `TypeError`. -/
def blind_chips_needed (state : GameState) : Except String Int :=
  match state.blind with
  | some b =>
    match b.chips_needed with
    | some c => .ok c
    | none => .error "TypeError: '>' not supported between instances of 'int' and 'NoneType'"
  | none => .ok 0

/-- The feature vector `tokenize_state` builds once the chips-needed value
is known (obs_tokenizer.py 147-215). -/
def tokenize_state_core (pyhash : String → Nat) (log10 : Int → ℚ) (state : GameState)
    (chips_needed : Int) : List ℚ :=
  let chips_scored : Int := match state.blind with | some b => b.chips_scored | none => 0
  let scalars : List ℚ :=
    [ (PHASE_MAP state.phase : ℚ) / 10,
      ((min state.money 500 : Int) : ℚ) / 500,
      (state.ante : ℚ) / 8,
      (state.round : ℚ) / 32,
      (state.hands_remaining : ℚ) / 5,
      (state.discards_remaining : ℚ) / 5,
      log10 (max chips_needed 1) / 12,
      log10 (max chips_scored 1) / 12,
      (state.deck_counts.deck_size : ℚ) / 52,
      (state.deck_counts.discard_size : ℚ) / 52 ]
  let hand_feats := (List.range MAX_HAND_SIZE).flatMap (fun i =>
    match state.hand[i]? with
    | some c => tokenize_card pyhash c
    | none => List.replicate card_features 0)
  let joker_feats := (List.range MAX_JOKERS).flatMap (fun i =>
    match state.jokers[i]? with
    | some j => tokenize_joker pyhash j
    | none => List.replicate 4 0)
  let cons_feats := (List.range MAX_CONSUMABLES).flatMap (fun i =>
    match state.consumables[i]? with
    | some cons =>
      [ ((pyhash (first_truthy cons.key cons.name) % VOCAB_consumable : Nat) : ℚ) /
          (VOCAB_consumable : ℚ), 1 ]
    | none => [0, 0])
  let shop_items := match state.shop with | some sh => sh.items | none => []
  let shop_feats := (List.range MAX_SHOP_ITEMS).flatMap (fun i =>
    match shop_items[i]? with
    | some item =>
      [ ((pyhash item.type % 10 : Nat) : ℚ) / 10,
        (item.cost : ℚ) / 50,
        if item.cost ≤ state.money then 1 else 0 ]
    | none => [0, 0, 0])
  scalars ++ hand_feats ++ joker_feats ++ cons_feats ++ shop_feats

/-- `ObservationTokenizer.tokenize_state`. -/
def tokenize_state (pyhash : String → Nat) (log10 : Int → ℚ) (state : GameState) :
    Except String (List ℚ) :=
  match blind_chips_needed state with
  | .error e => .error e
  | .ok chips_needed => .ok (tokenize_state_core pyhash log10 state chips_needed)

theorem length_flatMap_const {α : Type} (l : List α) (f : α → List ℚ) (k : Nat)
    (hf : ∀ a ∈ l, (f a).length = k) : (l.flatMap f).length = l.length * k := by
  induction l with
  | nil => simp
  | cons a t ih =>
    rw [show (a :: t).flatMap f = f a ++ t.flatMap f from rfl, List.length_append,
      hf a (List.mem_cons_self _ _), ih (fun x hx => hf x (List.mem_cons_of_mem _ hx)),
      List.length_cons]
    ring

theorem length_tokenize_card (pyhash : String → Nat) (c : CardData) :
    (tokenize_card pyhash c).length = card_features := rfl

theorem length_tokenize_joker (pyhash : String → Nat) (j : JokerData) :
    (tokenize_joker pyhash j).length = 4 := rfl

theorem length_tokenize_state_core (pyhash : String → Nat) (log10 : Int → ℚ)
    (state : GameState) (c : Int) :
    (tokenize_state_core pyhash log10 state c).length = obs_size := by
  unfold tokenize_state_core
  rw [List.length_append, List.length_append, List.length_append, List.length_append]
  rw [length_flatMap_const _ _ card_features (fun i _ => by
    cases hx : state.hand[i]? with
    | none => simp [hx]
    | some cd => simp [hx, length_tokenize_card])]
  rw [length_flatMap_const _ _ 4 (fun i _ => by
    cases hx : state.jokers[i]? with
    | none => simp [hx]
    | some j => simp [hx, length_tokenize_joker])]
  rw [length_flatMap_const _ _ 2 (fun i _ => by
    cases hx : state.consumables[i]? with
    | none => simp [hx]
    | some cons => simp [hx])]
  rw [length_flatMap_const _ _ 3 (fun i _ => by
    cases hx : (match state.shop with | some sh => sh.items | none => [])[i]? with
    | none => simp [hx]
    | some item => simp [hx])]
  rfl

/-! ## Claim C9 -/

/-- C9 counterexample: a state whose blind is present but carries a null
`chips_needed` makes the tokenizer raise `TypeError` at
`math.log10(max(chips_needed, 1))`, so tokenization is not total on all
StructuredGameStates. -/
theorem C9_counterexample :
    tokenize_state (fun _ => 0) (fun _ => 0)
        { phase := GamePhase.SELECTING_HAND, blind := some { chips_needed := none } } =
      .error "TypeError: '>' not supported between instances of 'int' and 'NoneType'" := rfl

/-- C9 (amended): tokenization succeeds for every state whose blind, when
present, carries a numeric `chips_needed` (in particular for any state
with no blind, empty hand, no jokers, no consumables, no shop, or
unknown categorical values), independently of the string-hash and log10
primitives, always yielding a vector of the fixed length
L = 10 + 10*8 + 5*4 + 4*2 + 6*3 = 136, with the card/joker/consumable/
shop blocks of absent items all zero; but a present blind with a null
`chips_needed` raises `TypeError`. -/
theorem C9_tokenizer_total_fixed_length (pyhash : String → Nat) (log10 : Int → ℚ)
    (state : GameState)
    (hblind : ∀ b, state.blind = some b → b.chips_needed.isSome = true) :
    ∃ v : List ℚ, tokenize_state pyhash log10 state = .ok v ∧ v.length = obs_size ∧
      obs_size = 136 ∧
      (state.hand = [] → state.jokers = [] → state.consumables = [] → state.shop = none →
        v.drop 10 = List.replicate 126 0) := by
  have hok : ∃ c, blind_chips_needed state = .ok c := by
    unfold blind_chips_needed
    cases hb : state.blind with
    | none => exact ⟨0, rfl⟩
    | some b =>
      have := hblind b hb
      cases hc : b.chips_needed with
      | none => rw [hc] at this; simp at this
      | some c => exact ⟨c, by simp [hc]⟩
  obtain ⟨c, hc⟩ := hok
  refine ⟨tokenize_state_core pyhash log10 state c, ?_, length_tokenize_state_core _ _ _ _,
    rfl, ?_⟩
  · unfold tokenize_state
    rw [hc]
  · intro hhand hjokers hcons hshop
    unfold tokenize_state_core
    rw [hhand, hjokers, hcons, hshop]
    rfl

/-- C9 witness: the totality-and-length statement applied at a concrete
all-empty state with concrete hash/log primitives. -/
theorem C9_witness :
    ∃ v : List ℚ,
      tokenize_state (fun _ => 0) (fun _ => 0) { phase := GamePhase.SELECTING_HAND } =
        .ok v ∧ v.length = obs_size ∧ obs_size = 136 ∧
      (({ phase := GamePhase.SELECTING_HAND } : GameState).hand = [] →
        ({ phase := GamePhase.SELECTING_HAND } : GameState).jokers = [] →
        ({ phase := GamePhase.SELECTING_HAND } : GameState).consumables = [] →
        ({ phase := GamePhase.SELECTING_HAND } : GameState).shop = none →
        v.drop 10 = List.replicate 126 0) :=
  C9_tokenizer_total_fixed_length (fun _ => 0) (fun _ => 0)
    { phase := GamePhase.SELECTING_HAND } (by intro b hb; simp at hb)

end Balatro
